import Mathlib

/-!
Verification development for the AlibabaCloud NLB operator.

The Go sources are shallowly embedded:
* the resource data model (`pkg/apis/nlboperator/v1/nlb_types.go`) becomes
  plain structures;
* the provider client (`pkg/provider/nlb_client.go`) becomes pure functions
  over an `SdkEnv` environment that plays the role of the remote SDK; every
  issued SDK request is recorded in a `Call` trace; Go errors are strings and
  the `strings.Contains(err, "ResourceNotFound")` classification is embedded
  literally;
* the reconcile controller (the `controller` package) becomes functions
  returning a `RecResult`: the updated in-memory object, the returned
  `ctrl.Result` (requeue flag plus requeue-after seconds), the returned
  error, the trace of SDK calls and the recorder events.  A Go nil-pointer
  dereference is modelled as the distinguished `RecOutcome.panic` outcome.

Time-varying provider state (a load balancer vanishing between calls) is
modelled by indexing the environment's get-attribute and job-status entries
by the number of such calls already issued in the pass; the controller
threads that counter exactly along its call sequence.  Durations are in
seconds (30*time.Second becomes 30).  Status writes through the platform
client are modelled as the in-memory update (their failure paths are not
exercised by any claim).
-/

namespace NLBOp

/-- `strings.Contains` on the character lists of the two strings:
does `pat` occur as a contiguous substring of `s`? -/
def listInfixOf (pat : List Char) : List Char → Bool
  | [] => pat.isEmpty
  | l@(_ :: rest) => pat.isPrefixOf l || listInfixOf pat rest

/-- Embedding of Go `strings.Contains s pat`. -/
def strContains (s pat : String) : Bool :=
  listInfixOf pat.toList s.toList

/-! ## Data model (pkg/apis/nlboperator/v1/nlb_types.go) -/

/-- `metav1.ConditionStatus`: True | False | Unknown. -/
inductive ConditionStatus where
  | condTrue
  | condFalse
  | condUnknown
deriving DecidableEq, Repr

/-- `metav1.Condition` (the fields the controller writes). -/
structure Condition where
  type_ : String
  status : ConditionStatus
  reason : String
  message : String
  lastTransitionTime : Nat
  observedGeneration : Nat
deriving DecidableEq, Repr

/-- `ListenerSpec` (the fields the controller logic reads; the remaining
fields are marshalled verbatim into the create request and never branch). -/
structure ListenerSpec where
  listenerProtocol : String
  listenerPort : Int
  serverGroupId : String
deriving DecidableEq, Repr

/-- `ListenerStatus`: port, provider listener id, status string. -/
structure ListenerStatus where
  listenerPort : Int
  listenerId : String
  status : String
deriving DecidableEq, Repr

/-- `NLBSpec` (the fields the controller logic reads). -/
structure NLBSpec where
  loadBalancerName : String
  addressType : String
  vpcId : String
  securityGroupIds : List String
  listeners : List ListenerSpec
deriving DecidableEq, Repr

/-- `NLBStatus`. -/
structure NLBStatus where
  loadBalancerId : String
  dnsName : String
  loadBalancerStatus : String
  conditions : List Condition
  listenerStatus : List ListenerStatus
deriving DecidableEq, Repr

/-- The NLB resource object: finalizer list and generation from the object
metadata, plus spec and status. -/
structure NLB where
  finalizers : List String
  generation : Nat
  spec : NLBSpec
  status : NLBStatus
deriving DecidableEq, Repr

/-! ## SDK response bodies (the fields the client reads; a `none` at the
outer `Option` models a nil response or nil response body) -/

structure CreateLoadBalancerBody where
  loadbalancerId : Option String
deriving DecidableEq, Repr

structure GetLoadBalancerBody where
  dnsName : Option String
  loadBalancerStatus : Option String
deriving DecidableEq, Repr

structure UpdateProtectionBody
deriving DecidableEq, Repr

structure DeleteLoadBalancerBody where
  jobId : Option String
deriving DecidableEq, Repr

structure JoinSecurityGroupBody where
  jobId : Option String
deriving DecidableEq, Repr

structure CreateListenerBody where
  listenerId : Option String
deriving DecidableEq, Repr

structure DeleteListenerBody where
  jobId : Option String
deriving DecidableEq, Repr

structure JobStatusBody where
  status : Option String
deriving DecidableEq, Repr

/-- The remote SDK, as an environment of responses.  `getLoadBalancerAttribute`
and `getJobStatus` additionally take the index of the call (how many calls of
that kind were already issued in the pass, resp. the poll attempt number), so
that the provider state may change between calls. -/
structure SdkEnv where
  createLoadBalancer : Except String (Option CreateLoadBalancerBody)
  getLoadBalancerAttribute : Nat → String → Except String (Option GetLoadBalancerBody)
  updateLoadBalancerProtection : String → Bool → Except String (Option UpdateProtectionBody)
  deleteLoadBalancer : String → Except String (Option DeleteLoadBalancerBody)
  loadBalancerJoinSecurityGroup : String → List String → Except String (Option JoinSecurityGroupBody)
  createListener : String → ListenerSpec → Except String (Option CreateListenerBody)
  deleteListener : String → Except String (Option DeleteListenerBody)
  getJobStatus : Nat → String → Except String (Option JobStatusBody)

/-- One issued SDK request. -/
inductive Call where
  | createLoadBalancer
  | getLoadBalancer (lbId : String)
  | updateProtection (lbId : String) (enabled : Bool)
  | deleteLoadBalancer (lbId : String)
  | joinSecurityGroup (lbId : String) (sgIds : List String)
  | createListener (lbId : String) (port : Int)
  | deleteListener (listenerId : String)
  | getJobStatus (jobId : String)
deriving DecidableEq, Repr

def Call.isDelListener : Call → Bool
  | .deleteListener _ => true
  | _ => false

def Call.isDelLB : Call → Bool
  | .deleteLoadBalancer _ => true
  | _ => false

def Call.isCreateListener : Call → Bool
  | .createListener _ _ => true
  | _ => false

/-! ## Provider client (pkg/provider/nlb_client.go) -/

/-- `GetLoadBalancer`: a ResourceNotFound SDK error becomes `(nil, nil)`,
i.e. `.ok none`; other errors are wrapped; a nil response body is an
"invalid response" error. -/
def GetLoadBalancer (env : SdkEnv) (cnt : Nat) (lbId : String) :
    (Except String (Option GetLoadBalancerBody)) × List Call :=
  match env.getLoadBalancerAttribute cnt lbId with
  | .error e =>
      if strContains e "ResourceNotFound" then (.ok none, [.getLoadBalancer lbId])
      else (.error ("failed to get load balancer: " ++ e), [.getLoadBalancer lbId])
  | .ok none => (.error "invalid response from GetLoadBalancerAttribute API", [.getLoadBalancer lbId])
  | .ok (some b) => (.ok (some b), [.getLoadBalancer lbId])

/-- One attempt of the `waitJobFinish` poll closure: query the job status;
`Succeeded` is done, `Failed` is a terminal error, anything else polls on. -/
def jobPollCond (env : SdkEnv) (jobId : String) (attempt : Nat) :
    (Except String Bool) × List Call :=
  match env.getJobStatus attempt jobId with
  | .error e => (.error ("failed to get job status: " ++ e), [.getJobStatus jobId])
  | .ok none => (.error "invalid response from GetJobStatus API", [.getJobStatus jobId])
  | .ok (some b) =>
      let status := b.status.getD ""
      if status == "Succeeded" then (.ok true, [.getJobStatus jobId])
      else if status == "Failed" then (.error ("job " ++ jobId ++ " failed"), [.getJobStatus jobId])
      else (.ok false, [.getJobStatus jobId])

/-- `wait.PollImmediate(interval, ceiling, cond)`: the condition runs
immediately and then once per interval until the ceiling; exhausting the
ceiling yields the wait package's timeout error.  Time is abstracted to the
number of attempts; `i` is the index of the next attempt and `fuel` the
number of attempts still allowed. -/
def pollImmediate (cond : Nat → (Except String Bool) × List Call) :
    Nat → Nat → (Except String Unit) × List Call
  | _, 0 => (.error "timed out waiting for the condition", [])
  | i, fuel + 1 =>
      match cond i with
      | (.error e, tr) => (.error e, tr)
      | (.ok true, tr) => (.ok (), tr)
      | (.ok false, tr) =>
          let rest := pollImmediate cond (i + 1) fuel
          (rest.1, tr ++ rest.2)

/-- Number of condition attempts of `PollImmediate(intervalSec, ceilingSec)`:
one immediate attempt plus one per elapsed interval up to the ceiling. -/
def pollAttempts (intervalSec ceilingSec : Nat) : Nat :=
  ceilingSec / intervalSec + 1

/-- `waitJobFinish`: poll the job every 3 seconds for up to 3 minutes. -/
def waitJobFinish (env : SdkEnv) (jobId : String) : (Except String Unit) × List Call :=
  pollImmediate (jobPollCond env jobId) 0 (pollAttempts 3 180)

/-- `CreateLoadBalancer` (client): request marshalling carries no branching
relevant to the environment's reply, so the reply is looked up directly. -/
def CreateLoadBalancer (env : SdkEnv) (_nlb : NLB) : (Except String String) × List Call :=
  match env.createLoadBalancer with
  | .error e => (.error ("failed to create load balancer: " ++ e), [.createLoadBalancer])
  | .ok none => (.error "invalid response from CreateLoadBalancer API", [.createLoadBalancer])
  | .ok (some b) =>
      match b.loadbalancerId with
      | none => (.error "invalid response from CreateLoadBalancer API", [.createLoadBalancer])
      | some id => (.ok id, [.createLoadBalancer])

/-- `UpdateLoadBalancerProtection` (client). -/
def UpdateLoadBalancerProtection (env : SdkEnv) (lbId : String) (enabled : Bool) :
    (Except String Unit) × List Call :=
  match env.updateLoadBalancerProtection lbId enabled with
  | .error e =>
      (.error ("failed to update load balancer protection: " ++ e), [.updateProtection lbId enabled])
  | .ok none =>
      (.error "invalid response from UpdateLoadBalancerProtection API", [.updateProtection lbId enabled])
  | .ok (some _) => (.ok (), [.updateProtection lbId enabled])

/-- The trailing part of `DeleteLoadBalancer`: issue the delete request.
A ResourceNotFound error is already-deleted success; a returned job id is
waited on.  `tr0` is the trace accumulated before the delete request. -/
def deleteLBCore (env : SdkEnv) (lbId : String) (tr0 : List Call) :
    (Except String Unit) × List Call :=
  match env.deleteLoadBalancer lbId with
  | .error e =>
      if strContains e "ResourceNotFound" then (.ok (), tr0 ++ [.deleteLoadBalancer lbId])
      else (.error ("failed to delete load balancer: " ++ e), tr0 ++ [.deleteLoadBalancer lbId])
  | .ok none => (.error "invalid response from DeleteLoadBalancer API", tr0 ++ [.deleteLoadBalancer lbId])
  | .ok (some b) =>
      match b.jobId with
      | some j =>
          let w := waitJobFinish env j
          (w.1, tr0 ++ .deleteLoadBalancer lbId :: w.2)
      | none => (.ok (), tr0 ++ [.deleteLoadBalancer lbId])

/-- `DeleteLoadBalancer` (client): first a get (a clean not-found is
already-deleted success; a get error is only logged), then disable deletion
protection (a ResourceNotFound there is already-deleted success, any other
error is only logged), then the delete request itself. -/
def DeleteLoadBalancer (env : SdkEnv) (cnt : Nat) (lbId : String) :
    (Except String Unit) × List Call :=
  let g := GetLoadBalancer env cnt lbId
  match g.1 with
  | .ok none => (.ok (), g.2)
  | _ =>
      let p := UpdateLoadBalancerProtection env lbId false
      match p.1 with
      | .error pe =>
          if strContains pe "ResourceNotFound" then (.ok (), g.2 ++ p.2)
          else deleteLBCore env lbId (g.2 ++ p.2)
      | .ok () => deleteLBCore env lbId (g.2 ++ p.2)

/-- `JoinSecurityGroup` (client): empty id list is a no-op; a returned job
id is waited on. -/
def JoinSecurityGroup (env : SdkEnv) (lbId : String) (sgIds : List String) :
    (Except String Unit) × List Call :=
  if sgIds.isEmpty then (.ok (), [])
  else
    match env.loadBalancerJoinSecurityGroup lbId sgIds with
    | .error e => (.error ("failed to join security group: " ++ e), [.joinSecurityGroup lbId sgIds])
    | .ok none =>
        (.error "invalid response from LoadBalancerJoinSecurityGroup API", [.joinSecurityGroup lbId sgIds])
    | .ok (some b) =>
        match b.jobId with
        | some j =>
            let w := waitJobFinish env j
            (w.1, .joinSecurityGroup lbId sgIds :: w.2)
        | none => (.ok (), [.joinSecurityGroup lbId sgIds])

/-- `CreateListener` (client). -/
def CreateListener (env : SdkEnv) (lbId : String) (ls : ListenerSpec) :
    (Except String String) × List Call :=
  match env.createListener lbId ls with
  | .error e => (.error ("failed to create listener: " ++ e), [.createListener lbId ls.listenerPort])
  | .ok none => (.error "invalid response from CreateListener API", [.createListener lbId ls.listenerPort])
  | .ok (some b) =>
      match b.listenerId with
      | none => (.error "invalid response from CreateListener API", [.createListener lbId ls.listenerPort])
      | some id => (.ok id, [.createListener lbId ls.listenerPort])

/-- `DeleteListener` (client): a ResourceNotFound error is already-deleted
success; a returned job id is waited on. -/
def DeleteListener (env : SdkEnv) (listenerId : String) : (Except String Unit) × List Call :=
  match env.deleteListener listenerId with
  | .error e =>
      if strContains e "ResourceNotFound" then (.ok (), [.deleteListener listenerId])
      else (.error ("failed to delete listener: " ++ e), [.deleteListener listenerId])
  | .ok none => (.error "invalid response from DeleteListener API", [.deleteListener listenerId])
  | .ok (some b) =>
      match b.jobId with
      | some j =>
          let w := waitJobFinish env j
          (w.1, .deleteListener listenerId :: w.2)
      | none => (.ok (), [.deleteListener listenerId])

/-- One attempt of the `WaitLoadBalancerActive` poll closure. -/
def activePollCond (env : SdkEnv) (cnt : Nat) (lbId : String) (attempt : Nat) :
    (Except String Bool) × List Call :=
  match GetLoadBalancer env (cnt + attempt) lbId with
  | (.error e, tr) => (.error e, tr)
  | (.ok none, tr) => (.error ("load balancer " ++ lbId ++ " not found"), tr)
  | (.ok (some b), tr) =>
      if b.loadBalancerStatus.getD "" == "Active" then (.ok true, tr) else (.ok false, tr)

/-- `WaitLoadBalancerActive`: poll the attribute get every 10 seconds for up
to 5 minutes until the status string is `Active`. -/
def WaitLoadBalancerActive (env : SdkEnv) (cnt : Nat) (lbId : String) :
    (Except String Unit) × List Call :=
  pollImmediate (activePollCond env cnt lbId) 0 (pollAttempts 10 300)

/-! ## Reconcile controller (the `controller` package) -/

def NLBFinalizer : String := "nlboperator.alibabacloud.com/finalizer"
def ConditionTypeReady : String := "Ready"
def ConditionTypeError : String := "Error"
def ReasonReconcileSuccess : String := "ReconcileSuccess"
def ReasonReconcileError : String := "ReconcileError"
def ReasonDeletionSuccess : String := "DeletionSuccess"
def ReasonDeletionError : String := "DeletionError"

/-- `ctrl.Result`: requeue flag plus requeue-after duration in seconds. -/
structure CtrlResult where
  requeue : Bool := false
  requeueAfterSec : Nat := 0
deriving DecidableEq, Repr

/-- One recorder event: type, reason, message. -/
structure Event where
  etype : String
  reason : String
  message : String
deriving DecidableEq, Repr

/-- Outcome of a handler: a normal return (object, result, error) or a Go
nil-pointer panic. -/
inductive RecOutcome where
  | ok (nlb : NLB) (res : CtrlResult) (err : Option String)
  | panic (msg : String)
deriving DecidableEq, Repr

/-- Full observable behaviour of one handler invocation. -/
structure RecResult where
  outcome : RecOutcome
  calls : List Call
  events : List Event
deriving DecidableEq, Repr

def nilDerefMsg : String := "invalid memory address or nil pointer dereference"

/-- The loop body of `updateCondition`: replace the first condition of the
same type in place, else append at the end. -/
def replaceFirstCondition : List Condition → Condition → List Condition
  | [], c => [c]
  | x :: rest, c =>
      if x.type_ == c.type_ then c :: rest else x :: replaceFirstCondition rest c

/-- `updateCondition`: build the condition from the arguments, the clock and
the object generation, then replace-or-append by type. -/
def updateCondition (nlb : NLB) (ctype : String) (cstatus : ConditionStatus)
    (reason message : String) (now : Nat) : NLB :=
  let c : Condition :=
    { type_ := ctype, status := cstatus, reason := reason, message := message,
      lastTransitionTime := now, observedGeneration := nlb.generation }
  { nlb with status := { nlb.status with conditions := replaceFirstCondition nlb.status.conditions c } }

/-- The `existingListeners` map of `handleListeners`: a Go map built by
iterating the status records in order, so a later record for the same port
overwrites an earlier one. -/
def lookupPort : List ListenerStatus → Int → Option String
  | [], _ => none
  | s :: rest, p =>
      match lookupPort rest p with
      | some id => some id
      | none => if s.listenerPort == p then some s.listenerId else none

/-- The loop of `handleListeners` over the desired listener specs. -/
def handleListenersLoop (env : SdkEnv) (lbId : String) (existing : Int → Option String) :
    List ListenerSpec → (Except String (List ListenerStatus)) × List Call
  | [] => (.ok [], [])
  | ls :: rest =>
      match existing ls.listenerPort with
      | some id =>
          let r := handleListenersLoop env lbId existing rest
          (r.1.map (fun sts => ⟨ls.listenerPort, id, "Active"⟩ :: sts), r.2)
      | none =>
          let c := CreateListener env lbId ls
          match c.1 with
          | .error e =>
              (.error ("failed to create listener on port " ++ toString ls.listenerPort ++ ": " ++ e), c.2)
          | .ok id =>
              let r := handleListenersLoop env lbId existing rest
              (r.1.map (fun sts => ⟨ls.listenerPort, id, "Active"⟩ :: sts), c.2 ++ r.2)

/-- `handleListeners`: diff desired listeners against the port-keyed status
records; keep recorded ids, create the missing ones, rebuild the status list
in spec order.  On success the updated object is returned; on error the
object is untouched. -/
def handleListeners (env : SdkEnv) (nlb : NLB) : (Except String NLB) × List Call :=
  let r := handleListenersLoop env nlb.status.loadBalancerId
    (lookupPort nlb.status.listenerStatus) nlb.spec.listeners
  match r.1 with
  | .error e => (.error e, r.2)
  | .ok sts =>
      ((.ok { nlb with status := { nlb.status with listenerStatus := sts } }), r.2)

/-- `handleSecurityGroups`: no-op on an empty id list, else join. -/
def handleSecurityGroups (env : SdkEnv) (nlb : NLB) : (Except String Unit) × List Call :=
  if nlb.spec.securityGroupIds.isEmpty then (.ok (), [])
  else JoinSecurityGroup env nlb.status.loadBalancerId nlb.spec.securityGroupIds

/-- The tail of `handleCreateOrUpdate` once the load balancer is confirmed
present: security groups, listeners, Ready condition, final status write.
`tr0`/`evs0` are the trace and events accumulated so far. -/
def reconcileTail (env : SdkEnv) (now : Nat) (nlb : NLB) (tr0 : List Call) (evs0 : List Event) :
    RecResult :=
  let sg := handleSecurityGroups env nlb
  match sg.1 with
  | .error e =>
      { outcome := .ok nlb ⟨false, 30⟩ (some e),
        calls := tr0 ++ sg.2,
        events := evs0 ++ [⟨"Warning", ReasonReconcileError, "Failed to handle security groups: " ++ e⟩] }
  | .ok () =>
      let lsr := handleListeners env nlb
      match lsr.1 with
      | .error e =>
          { outcome := .ok nlb ⟨false, 30⟩ (some e),
            calls := tr0 ++ sg.2 ++ lsr.2,
            events := evs0 ++ [⟨"Warning", ReasonReconcileError, "Failed to handle listeners: " ++ e⟩] }
      | .ok nlb2 =>
          let nlb3 := updateCondition nlb2 ConditionTypeReady .condTrue ReasonReconcileSuccess
            "NLB reconciled successfully" now
          { outcome := .ok nlb3 ⟨false, 300⟩ none,
            calls := tr0 ++ sg.2 ++ lsr.2,
            events := evs0 ++ [⟨"Normal", ReasonReconcileSuccess, "Successfully reconciled NLB"⟩] }

/-- The drift reset of `handleCreateOrUpdate`: the load balancer was deleted
externally, clear the three identity fields. -/
def driftReset (nlb : NLB) : NLB :=
  { nlb with status := { nlb.status with loadBalancerId := "", dnsName := "", loadBalancerStatus := "" } }

/-- `handleCreateOrUpdate`.  `cnt` is the attribute-get call counter at entry
(zero for a fresh pass), `now` the clock used for condition timestamps. -/
def handleCreateOrUpdate (env : SdkEnv) (cnt now : Nat) (nlb : NLB) : RecResult :=
  if nlb.status.loadBalancerId == "" then
    let cr := CreateLoadBalancer env nlb
    match cr.1 with
    | .error e =>
        let nlb1 := updateCondition nlb ConditionTypeError .condTrue ReasonReconcileError e now
        { outcome := .ok nlb1 ⟨false, 30⟩ (some e), calls := cr.2,
          events := [⟨"Warning", ReasonReconcileError, "Failed to create NLB: " ++ e⟩] }
    | .ok lbId =>
        let nlb1 :=
          { nlb with status := { nlb.status with loadBalancerId := lbId, loadBalancerStatus := "Provisioning" } }
        let nlb2 := updateCondition nlb1 ConditionTypeReady .condFalse "Provisioning"
          "NLB instance is being created" now
        let w := WaitLoadBalancerActive env cnt lbId
        match w.1 with
        | .error e =>
            { outcome := .ok nlb2 ⟨false, 30⟩ (some e), calls := cr.2 ++ w.2,
              events := [⟨"Warning", ReasonReconcileError, "Failed to wait for NLB to be active: " ++ e⟩] }
        | .ok () =>
            let g := GetLoadBalancer env (cnt + w.2.length) lbId
            match g.1 with
            | .error e =>
                { outcome := .ok nlb2 ⟨false, 30⟩ (some e), calls := cr.2 ++ w.2 ++ g.2, events := [] }
            | .ok none =>
                { outcome := .panic nilDerefMsg, calls := cr.2 ++ w.2 ++ g.2, events := [] }
            | .ok (some b) =>
                match b.dnsName, b.loadBalancerStatus with
                | some dns, some st =>
                    let nlb3 :=
                      { nlb2 with status := { nlb2.status with dnsName := dns, loadBalancerStatus := st } }
                    reconcileTail env now nlb3 (cr.2 ++ w.2 ++ g.2)
                      [⟨"Normal", ReasonReconcileSuccess, "Successfully created NLB: " ++ lbId⟩]
                | _, _ =>
                    { outcome := .panic nilDerefMsg, calls := cr.2 ++ w.2 ++ g.2, events := [] }
  else
    let g := GetLoadBalancer env cnt nlb.status.loadBalancerId
    match g.1 with
    | .error e =>
        let nlb1 := updateCondition nlb ConditionTypeError .condTrue ReasonReconcileError e now
        { outcome := .ok nlb1 ⟨false, 30⟩ (some e), calls := g.2,
          events := [⟨"Warning", ReasonReconcileError, "Failed to get NLB: " ++ e⟩] }
    | .ok none =>
        { outcome := .ok (driftReset nlb) ⟨true, 0⟩ none, calls := g.2, events := [] }
    | .ok (some b) =>
        match b.dnsName, b.loadBalancerStatus with
        | some dns, some st =>
            let nlb1 := { nlb with status := { nlb.status with dnsName := dns, loadBalancerStatus := st } }
            reconcileTail env now nlb1 g.2 []
        | _, _ =>
            { outcome := .panic nilDerefMsg, calls := g.2, events := [] }

/-- The listener-deletion loop of `handleDeletion`: records with an empty id
are skipped; the first failure aborts. -/
def deleteListeners (env : SdkEnv) : List ListenerStatus → (Except String Unit) × List Call
  | [] => (.ok (), [])
  | s :: rest =>
      if s.listenerId == "" then deleteListeners env rest
      else
        let d := DeleteListener env s.listenerId
        match d.1 with
        | .error e => (.error e, d.2)
        | .ok () =>
            let r := deleteListeners env rest
            (r.1, d.2 ++ r.2)

/-- `handleDeletion`: without the finalizer nothing happens; otherwise mark
Deleting, delete the recorded listeners in order, delete the load balancer if
one is recorded, then remove the finalizer. -/
def handleDeletion (env : SdkEnv) (cnt now : Nat) (nlb : NLB) : RecResult :=
  if NLBFinalizer ∈ nlb.finalizers then
    let nlb1 :=
      if nlb.status.loadBalancerStatus != "Deleting" then
        updateCondition
          { nlb with status := { nlb.status with loadBalancerStatus := "Deleting" } }
          ConditionTypeReady .condFalse "Deleting" "NLB is being deleted" now
      else nlb
    let dl := deleteListeners env nlb1.status.listenerStatus
    match dl.1 with
    | .error e =>
        { outcome := .ok nlb1 ⟨false, 30⟩ (some e), calls := dl.2,
          events := [⟨"Warning", ReasonDeletionError, "Failed to delete listener: " ++ e⟩] }
    | .ok () =>
        if nlb1.status.loadBalancerId == "" then
          let nlb2 := { nlb1 with finalizers := nlb1.finalizers.filter (fun s => s != NLBFinalizer) }
          { outcome := .ok nlb2 ⟨false, 0⟩ none, calls := dl.2, events := [] }
        else
          let db := DeleteLoadBalancer env cnt nlb1.status.loadBalancerId
          match db.1 with
          | .error e =>
              { outcome := .ok nlb1 ⟨false, 30⟩ (some e), calls := dl.2 ++ db.2,
                events := [⟨"Warning", ReasonDeletionError, "Failed to delete NLB: " ++ e⟩] }
          | .ok () =>
              let nlb2 := { nlb1 with finalizers := nlb1.finalizers.filter (fun s => s != NLBFinalizer) }
              { outcome := .ok nlb2 ⟨false, 0⟩ none, calls := dl.2 ++ db.2,
                events := [⟨"Normal", ReasonDeletionSuccess,
                  "Successfully deleted NLB: " ++ nlb1.status.loadBalancerId⟩] }
  else
    { outcome := .ok nlb ⟨false, 0⟩ none, calls := [], events := [] }

/-! ## Condition-ledger lemmas (C5) -/

theorem replaceFirst_self_mem (l : List Condition) (c : Condition) :
    c ∈ replaceFirstCondition l c := by
  induction l with
  | nil => simp [replaceFirstCondition]
  | cons x rest ih =>
    simp only [replaceFirstCondition]
    by_cases h : x.type_ = c.type_
    · simp [h]
    · simp only [beq_iff_eq, h, if_false, List.mem_cons]
      exact Or.inr ih

theorem replaceFirst_types_subset (l : List Condition) (c : Condition) :
    ∀ t ∈ (replaceFirstCondition l c).map (fun x => x.type_),
      t ∈ l.map (fun x => x.type_) ∨ t = c.type_ := by
  induction l with
  | nil =>
    intro t ht
    simp only [replaceFirstCondition, List.map_cons, List.map_nil, List.mem_cons,
      List.not_mem_nil, or_false] at ht
    exact Or.inr ht
  | cons x rest ih =>
    intro t ht
    simp only [replaceFirstCondition] at ht
    by_cases h : x.type_ = c.type_
    · simp only [beq_iff_eq, h, if_true, List.map_cons, List.mem_cons] at ht
      rcases ht with ht | ht
      · exact Or.inr ht
      · exact Or.inl (by rw [List.map_cons]; exact List.mem_cons_of_mem _ ht)
    · simp only [beq_iff_eq, h, if_false, List.map_cons, List.mem_cons] at ht
      rcases ht with ht | ht
      · exact Or.inl (by rw [List.map_cons, ht]; exact List.mem_cons_self _ _)
      · rcases ih t ht with h' | h'
        · exact Or.inl (by rw [List.map_cons]; exact List.mem_cons_of_mem _ h')
        · exact Or.inr h'

theorem replaceFirst_types_nodup (l : List Condition) (c : Condition)
    (h : (l.map (fun x => x.type_)).Nodup) :
    ((replaceFirstCondition l c).map (fun x => x.type_)).Nodup := by
  induction l with
  | nil => simp [replaceFirstCondition]
  | cons x rest ih =>
    simp only [List.map_cons, List.nodup_cons] at h
    obtain ⟨hx, hrest⟩ := h
    simp only [replaceFirstCondition]
    by_cases hxc : x.type_ = c.type_
    · simp only [beq_iff_eq, hxc, if_true, List.map_cons, List.nodup_cons]
      exact ⟨by rw [← hxc]; exact hx, hrest⟩
    · simp only [beq_iff_eq, hxc, if_false, List.map_cons, List.nodup_cons]
      refine ⟨fun hmem => ?_, ih hrest⟩
      rcases replaceFirst_types_subset rest c _ hmem with h' | h'
      · exact hx h'
      · exact hxc h'

theorem replaceFirst_countP (l : List Condition) (c : Condition)
    (h : (l.map (fun x => x.type_)).Nodup) :
    (replaceFirstCondition l c).countP (fun x => x.type_ == c.type_) = 1 := by
  induction l with
  | nil => simp [replaceFirstCondition, List.countP_cons]
  | cons x rest ih =>
    simp only [List.map_cons, List.nodup_cons] at h
    obtain ⟨hx, hrest⟩ := h
    simp only [replaceFirstCondition]
    by_cases hxc : x.type_ = c.type_
    · simp only [beq_iff_eq, hxc, if_true]
      have hzero : rest.countP (fun x => x.type_ == c.type_) = 0 := by
        rw [List.countP_eq_zero]
        intro a ha
        simp only [beq_iff_eq]
        intro hc
        exact hx (by rw [hxc, ← hc]; exact List.mem_map_of_mem _ ha)
      simp [List.countP_cons, hzero]
    · simp only [beq_iff_eq, hxc, if_false]
      rw [List.countP_cons]
      simp [hxc, ih hrest]

theorem map_replace_eq_self (c : Condition) :
    ∀ l : List Condition, (∀ a ∈ l, ¬ a.type_ = c.type_) →
      l.map (fun x => if x.type_ = c.type_ then c else x) = l := by
  intro l h
  induction l with
  | nil => rfl
  | cons a rest ih =>
    simp only [List.map_cons]
    rw [if_neg (h a (List.mem_cons_self a rest)),
      ih (fun b hb => h b (List.mem_cons_of_mem a hb))]

theorem replaceFirst_of_mem (l : List Condition) (c : Condition)
    (h : (l.map (fun x => x.type_)).Nodup)
    (hm : c.type_ ∈ l.map (fun x => x.type_)) :
    replaceFirstCondition l c = l.map (fun x => if x.type_ = c.type_ then c else x) := by
  induction l with
  | nil => simp at hm
  | cons x rest ih =>
    simp only [List.map_cons, List.nodup_cons] at h
    obtain ⟨hx, hrest⟩ := h
    simp only [replaceFirstCondition, List.map_cons]
    by_cases hxc : x.type_ = c.type_
    · simp only [beq_iff_eq, hxc, if_true]
      have hnone : ∀ a ∈ rest, ¬ a.type_ = c.type_ := by
        intro a ha hc
        exact hx (by rw [hxc, ← hc]; exact List.mem_map_of_mem _ ha)
      rw [map_replace_eq_self c rest hnone]
    · simp only [beq_iff_eq, hxc, if_false]
      have hm' : c.type_ ∈ rest.map (fun x => x.type_) := by
        simp only [List.map_cons, List.mem_cons] at hm
        rcases hm with hm | hm
        · exact absurd hm.symm hxc
        · exact hm
      rw [ih hrest hm']

theorem replaceFirst_of_not_mem (l : List Condition) (c : Condition)
    (hm : c.type_ ∉ l.map (fun x => x.type_)) :
    replaceFirstCondition l c = l ++ [c] := by
  induction l with
  | nil => simp [replaceFirstCondition]
  | cons x rest ih =>
    simp only [List.map_cons, List.mem_cons] at hm
    push_neg at hm
    obtain ⟨hx, hrest⟩ := hm
    simp only [replaceFirstCondition, beq_iff_eq, Ne.symm hx, if_false, List.cons_append]
    rw [ih hrest]

/-! ## Concrete inputs for C5 -/

def specEmpty : NLBSpec := ⟨"", "Internet", "", [], []⟩

def c5ReadyA : Condition := ⟨"Ready", .condTrue, "ReasonA", "", 0, 0⟩
def c5ReadyB : Condition := ⟨"Ready", .condFalse, "ReasonB", "", 0, 0⟩

/-- An NLB whose ledger already carries two conditions of type `Ready`. -/
def nlbC5 : NLB := ⟨[], 0, specEmpty, ⟨"", "", "", [c5ReadyA, c5ReadyB], []⟩⟩

/-- An NLB with a well-formed ledger (one condition, of type `Error`). -/
def nlbC5W : NLB := ⟨[], 0, specEmpty, ⟨"", "", "", [⟨"Error", .condTrue, "E", "", 0, 0⟩], []⟩⟩

/-- C5 counterexample: the claim quantifies over *every* condition ledger,
but `updateCondition` replaces only the first condition of the given type, so
on a ledger that already holds two `Ready` conditions an update of `Ready`
leaves two `Ready` entries — more than one condition of that type. -/
theorem C5_counterexample :
    ((updateCondition nlbC5 "Ready" .condTrue "ReasonC" "m" 1).status.conditions.countP
      (fun x => x.type_ == "Ready")) = 2 := by decide

/-- C5 (amended): on a ledger with at most one condition per type,
`updateCondition` preserves that invariant; an update of an existing type
replaces that entry in place (ledger rebuilt by a pointwise replacement, so
order is preserved), a new type is appended at the end, and writing the same
type twice with different reasons leaves exactly one entry of that type,
carrying the latest reason. -/
theorem C5_condition_ledger (nlb : NLB) (ctype : String) (s1 s2 : ConditionStatus)
    (r1 m1 r2 m2 : String) (t1 t2 : Nat)
    (hU : (nlb.status.conditions.map (fun x => x.type_)).Nodup) :
    let n1 := updateCondition nlb ctype s1 r1 m1 t1
    let n2 := updateCondition n1 ctype s2 r2 m2 t2
    ((n1.status.conditions.map (fun x => x.type_)).Nodup) ∧
    (ctype ∈ nlb.status.conditions.map (fun x => x.type_) →
      n1.status.conditions = nlb.status.conditions.map
        (fun x => if x.type_ = ctype then
          { type_ := ctype, status := s1, reason := r1, message := m1,
            lastTransitionTime := t1, observedGeneration := nlb.generation } else x)) ∧
    (ctype ∉ nlb.status.conditions.map (fun x => x.type_) →
      n1.status.conditions = nlb.status.conditions ++
        [{ type_ := ctype, status := s1, reason := r1, message := m1,
           lastTransitionTime := t1, observedGeneration := nlb.generation }]) ∧
    (n2.status.conditions.countP (fun x => x.type_ == ctype) = 1) ∧
    (({ type_ := ctype, status := s2, reason := r2, message := m2,
        lastTransitionTime := t2, observedGeneration := nlb.generation } : Condition) ∈
      n2.status.conditions) := by
  intro n1 n2
  have hc1 : n1.status.conditions =
      replaceFirstCondition nlb.status.conditions
        { type_ := ctype, status := s1, reason := r1, message := m1,
          lastTransitionTime := t1, observedGeneration := nlb.generation } := rfl
  have hn1U : (n1.status.conditions.map (fun x => x.type_)).Nodup := by
    rw [hc1]; exact replaceFirst_types_nodup _ _ hU
  have hgen : n1.generation = nlb.generation := rfl
  have hc2 : n2.status.conditions =
      replaceFirstCondition n1.status.conditions
        { type_ := ctype, status := s2, reason := r2, message := m2,
          lastTransitionTime := t2, observedGeneration := nlb.generation } := rfl
  refine ⟨hn1U, ?_, ?_, ?_, ?_⟩
  · intro hm
    rw [hc1]
    exact replaceFirst_of_mem _ _ hU hm
  · intro hm
    rw [hc1]
    exact replaceFirst_of_not_mem _ _ hm
  · rw [hc2]
    exact replaceFirst_countP n1.status.conditions
      { type_ := ctype, status := s2, reason := r2, message := m2,
        lastTransitionTime := t2, observedGeneration := nlb.generation } hn1U
  · rw [hc2]
    exact replaceFirst_self_mem _ _

/-- Witness for C5: the amended statement applied to the concrete ledger
`nlbC5W` (types `[Error]`), updating `Ready` twice. -/
theorem C5_condition_ledger_witness :
    ((nlbC5W.status.conditions.map (fun x => x.type_)).Nodup) ∧
    (let n1 := updateCondition nlbC5W "Ready" .condFalse "r1" "m1" 5
     let n2 := updateCondition n1 "Ready" .condTrue "r2" "m2" 6
     ((n1.status.conditions.map (fun x => x.type_)).Nodup) ∧
     ("Ready" ∈ nlbC5W.status.conditions.map (fun x => x.type_) →
       n1.status.conditions = nlbC5W.status.conditions.map
         (fun x => if x.type_ = "Ready" then
           { type_ := "Ready", status := .condFalse, reason := "r1", message := "m1",
             lastTransitionTime := 5, observedGeneration := nlbC5W.generation } else x)) ∧
     ("Ready" ∉ nlbC5W.status.conditions.map (fun x => x.type_) →
       n1.status.conditions = nlbC5W.status.conditions ++
         [{ type_ := "Ready", status := .condFalse, reason := "r1", message := "m1",
            lastTransitionTime := 5, observedGeneration := nlbC5W.generation }]) ∧
     (n2.status.conditions.countP (fun x => x.type_ == "Ready") = 1) ∧
     (({ type_ := "Ready", status := .condTrue, reason := "r2", message := "m2",
         lastTransitionTime := 6, observedGeneration := nlbC5W.generation } : Condition) ∈
       n2.status.conditions)) :=
  ⟨by decide, C5_condition_ledger nlbC5W "Ready" .condFalse .condTrue "r1" "m1" "r2" "m2" 5 6 (by decide)⟩

/-! ## Listener-diff lemmas (C1, C10) -/

/-- `lookupPort` misses exactly the ports that occur in no status record. -/
theorem lookupPort_eq_none (l : List ListenerStatus) (p : Int) :
    lookupPort l p = none ↔ p ∉ l.map (fun s => s.listenerPort) := by
  induction l with
  | nil => simp [lookupPort]
  | cons s rest ih =>
    simp only [lookupPort, List.map_cons, List.mem_cons]
    cases h : lookupPort rest p with
    | some id =>
      rw [h] at ih
      have hp : p ∈ rest.map (fun s => s.listenerPort) := by
        by_contra hc
        exact absurd (ih.mpr hc) (by simp)
      simp [hp]
    | none =>
      rw [h] at ih
      have hp : p ∉ rest.map (fun s => s.listenerPort) := ih.mp rfl
      by_cases hsp : s.listenerPort = p
      · simp [hsp]
      · simp only [beq_iff_eq, hsp, if_false, true_iff]
        simp [hp]
        exact fun hh => hsp hh.symm

/-- Exact behaviour of the `handleListeners` loop when every issued create
succeeds and returns the id `f port`: the rebuilt status list follows the
spec order, keeping recorded ids and recording created ones, and the trace is
exactly one create per desired port that had no record, in spec order. -/
theorem handleListenersLoop_spec (env : SdkEnv) (lbId : String) (f : Int → String)
    (existing : Int → Option String)
    (henv : ∀ ls : ListenerSpec, CreateListener env lbId ls =
      (.ok (f ls.listenerPort), [.createListener lbId ls.listenerPort])) :
    ∀ specs : List ListenerSpec,
      handleListenersLoop env lbId existing specs =
        (.ok (specs.map (fun ls =>
          match existing ls.listenerPort with
          | some id => (⟨ls.listenerPort, id, "Active"⟩ : ListenerStatus)
          | none => ⟨ls.listenerPort, f ls.listenerPort, "Active"⟩)),
         (specs.filter (fun ls => (existing ls.listenerPort).isNone)).map
           (fun ls => Call.createListener lbId ls.listenerPort)) := by
  intro specs
  induction specs with
  | nil => simp [handleListenersLoop]
  | cons ls rest ih =>
    simp only [handleListenersLoop]
    cases h : existing ls.listenerPort with
    | some id =>
      simp [h, ih, List.filter_cons, Except.map]
    | none =>
      simp [h, henv ls, ih, List.filter_cons, Except.map]

/-- The listener-status list rebuilt by `handleListeners` in desired-spec
order when creates return `f port`: recorded ids are kept, missing ones
become `f port`. -/
def rebuiltListenerStatus (nlb : NLB) (f : Int → String) : List ListenerStatus :=
  nlb.spec.listeners.map (fun ls =>
    match lookupPort nlb.status.listenerStatus ls.listenerPort with
    | some id => (⟨ls.listenerPort, id, "Active"⟩ : ListenerStatus)
    | none => ⟨ls.listenerPort, f ls.listenerPort, "Active"⟩)

/-- The create calls `handleListeners` issues: one per desired port that has
no status record, in desired-spec order. -/
def createdCalls (nlb : NLB) : List Call :=
  (nlb.spec.listeners.filter
    (fun ls => (lookupPort nlb.status.listenerStatus ls.listenerPort).isNone)).map
    (fun ls => Call.createListener nlb.status.loadBalancerId ls.listenerPort)

/-- `handleListeners` under an environment whose listener creates succeed
with id `f port`. -/
theorem handleListeners_spec (env : SdkEnv) (nlb : NLB) (f : Int → String)
    (henv : ∀ ls : ListenerSpec, CreateListener env nlb.status.loadBalancerId ls =
      (.ok (f ls.listenerPort), [.createListener nlb.status.loadBalancerId ls.listenerPort])) :
    handleListeners env nlb =
      (.ok { nlb with status := { nlb.status with listenerStatus := rebuiltListenerStatus nlb f } },
       createdCalls nlb) := by
  simp [handleListeners, rebuiltListenerStatus, createdCalls,
    handleListenersLoop_spec env nlb.status.loadBalancerId f
      (lookupPort nlb.status.listenerStatus) henv nlb.spec.listeners]

/-- C1: with unique desired ports and an environment whose creates succeed,
the listener reconciliation keeps the recorded id of every desired port that
already has a status record and issues no create for it; it issues exactly
one create for every desired port without a record and records the returned
id; the rebuilt status list is in desired-spec order (so records of dropped
ports disappear); and the trace holds only create-listener calls — in
particular no delete and no update of any kind. -/
theorem C1_listener_reconciliation (env : SdkEnv) (nlb : NLB) (f : Int → String)
    (hU : (nlb.spec.listeners.map (fun ls => ls.listenerPort)).Nodup)
    (henv : ∀ ls : ListenerSpec, CreateListener env nlb.status.loadBalancerId ls =
      (.ok (f ls.listenerPort), [.createListener nlb.status.loadBalancerId ls.listenerPort])) :
    ∃ nlb' tr, handleListeners env nlb = (.ok nlb', tr) ∧
      nlb'.status.listenerStatus.map (fun s => s.listenerPort) =
        nlb.spec.listeners.map (fun ls => ls.listenerPort) ∧
      (∀ ls ∈ nlb.spec.listeners, ∀ id,
        lookupPort nlb.status.listenerStatus ls.listenerPort = some id →
          (⟨ls.listenerPort, id, "Active"⟩ : ListenerStatus) ∈ nlb'.status.listenerStatus ∧
          Call.createListener nlb.status.loadBalancerId ls.listenerPort ∉ tr) ∧
      (∀ ls ∈ nlb.spec.listeners,
        lookupPort nlb.status.listenerStatus ls.listenerPort = none →
          (⟨ls.listenerPort, f ls.listenerPort, "Active"⟩ : ListenerStatus) ∈
            nlb'.status.listenerStatus ∧
          Call.createListener nlb.status.loadBalancerId ls.listenerPort ∈ tr) ∧
      (∀ c ∈ tr, c.isCreateListener = true ∧ c.isDelListener = false ∧ c.isDelLB = false) := by
  refine ⟨{ nlb with status := { nlb.status with listenerStatus := rebuiltListenerStatus nlb f } },
    createdCalls nlb, handleListeners_spec env nlb f henv, ?_, ?_, ?_, ?_⟩
  · show (rebuiltListenerStatus nlb f).map (fun s => s.listenerPort) = _
    rw [rebuiltListenerStatus, List.map_map]
    apply List.map_congr_left
    intro ls _
    cases h : lookupPort nlb.status.listenerStatus ls.listenerPort <;> simp [h]
  · intro ls hls id hid
    constructor
    · show _ ∈ rebuiltListenerStatus nlb f
      rw [rebuiltListenerStatus]
      have := List.mem_map_of_mem (fun ls =>
        match lookupPort nlb.status.listenerStatus ls.listenerPort with
        | some id => (⟨ls.listenerPort, id, "Active"⟩ : ListenerStatus)
        | none => ⟨ls.listenerPort, f ls.listenerPort, "Active"⟩) hls
      simpa only [hid] using this
    · intro hmem
      rw [createdCalls] at hmem
      rcases List.mem_map.mp hmem with ⟨ls', hls', heq⟩
      have hport : ls'.listenerPort = ls.listenerPort := by
        simpa [Call.createListener.injEq] using heq
      have := List.of_mem_filter hls'
      rw [hport, hid] at this
      simp at this
  · intro ls hls hid
    constructor
    · show _ ∈ rebuiltListenerStatus nlb f
      rw [rebuiltListenerStatus]
      have := List.mem_map_of_mem (fun ls =>
        match lookupPort nlb.status.listenerStatus ls.listenerPort with
        | some id => (⟨ls.listenerPort, id, "Active"⟩ : ListenerStatus)
        | none => ⟨ls.listenerPort, f ls.listenerPort, "Active"⟩) hls
      simpa only [hid] using this
    · rw [createdCalls]
      apply List.mem_map_of_mem
      apply List.mem_filter.mpr
      exact ⟨hls, by simp [hid]⟩
  · intro c hc
    rw [createdCalls] at hc
    rcases List.mem_map.mp hc with ⟨ls', _, heq⟩
    rw [← heq]
    exact ⟨rfl, rfl, rfl⟩

/-! ## Concrete environments and objects -/

/-- An environment whose every reply is an opaque error;
concrete scenarios override the fields they exercise. -/
def envStub : SdkEnv :=
  { createLoadBalancer := .error "stub",
    getLoadBalancerAttribute := fun _ _ => .error "stub",
    updateLoadBalancerProtection := fun _ _ => .error "stub",
    deleteLoadBalancer := fun _ => .error "stub",
    loadBalancerJoinSecurityGroup := fun _ _ => .error "stub",
    createListener := fun _ _ => .error "stub",
    deleteListener := fun _ => .error "stub",
    getJobStatus := fun _ _ => .error "stub" }

/-- Listener creates succeed with an id derived from the port. -/
def envListenOk : SdkEnv :=
  { envStub with
    createListener := fun _ ls => .ok (some ⟨some ("lsn-new-" ++ toString ls.listenerPort)⟩) }

def fW : Int → String := fun p => "lsn-new-" ++ toString p

/-- Desired ports 80 and 443; status records 80 → lsn-1 only. -/
def nlbC1 : NLB :=
  ⟨[], 0, ⟨"", "Internet", "", [], [⟨"TCP", 80, "sg"⟩, ⟨"TCP", 443, "sg"⟩]⟩,
    ⟨"lb-1", "", "", [], [⟨80, "lsn-1", "Active"⟩]⟩⟩

/-- Witness for C1 at the spec's own example: ports {80, 443} desired,
{80 → lsn-1} recorded. -/
theorem C1_listener_reconciliation_witness :
    ((nlbC1.spec.listeners.map (fun ls => ls.listenerPort)).Nodup) ∧
    (∀ ls : ListenerSpec, CreateListener envListenOk nlbC1.status.loadBalancerId ls =
      (.ok (fW ls.listenerPort), [.createListener nlbC1.status.loadBalancerId ls.listenerPort])) ∧
    (∃ nlb' tr, handleListeners envListenOk nlbC1 = (.ok nlb', tr) ∧
      nlb'.status.listenerStatus.map (fun s => s.listenerPort) =
        nlbC1.spec.listeners.map (fun ls => ls.listenerPort) ∧
      (∀ ls ∈ nlbC1.spec.listeners, ∀ id,
        lookupPort nlbC1.status.listenerStatus ls.listenerPort = some id →
          (⟨ls.listenerPort, id, "Active"⟩ : ListenerStatus) ∈ nlb'.status.listenerStatus ∧
          Call.createListener nlbC1.status.loadBalancerId ls.listenerPort ∉ tr) ∧
      (∀ ls ∈ nlbC1.spec.listeners,
        lookupPort nlbC1.status.listenerStatus ls.listenerPort = none →
          (⟨ls.listenerPort, fW ls.listenerPort, "Active"⟩ : ListenerStatus) ∈
            nlb'.status.listenerStatus ∧
          Call.createListener nlbC1.status.loadBalancerId ls.listenerPort ∈ tr) ∧
      (∀ c ∈ tr, c.isCreateListener = true ∧ c.isDelListener = false ∧ c.isDelLB = false)) :=
  ⟨by decide, fun _ => rfl,
    C1_listener_reconciliation envListenOk nlbC1 fW (by decide) (fun _ => rfl)⟩

/-! ## Drift reset (C10, C3) -/

/-- The branch of `handleCreateOrUpdate` taken when a load balancer is
recorded but the provider get reports it missing: clear the three identity
fields and requeue immediately. -/
theorem handleCreateOrUpdate_drift (env : SdkEnv) (cnt now : Nat) (nlb : NLB)
    (h1 : ¬ nlb.status.loadBalancerId = "")
    (h2 : (GetLoadBalancer env cnt nlb.status.loadBalancerId).1 = .ok none) :
    handleCreateOrUpdate env cnt now nlb =
      { outcome := .ok (driftReset nlb) ⟨true, 0⟩ none,
        calls := (GetLoadBalancer env cnt nlb.status.loadBalancerId).2,
        events := [] } := by
  have hbeq : (nlb.status.loadBalancerId == "") = false := by
    simp [beq_iff_eq]
    exact h1
  simp only [handleCreateOrUpdate, hbeq, Bool.false_eq_true, if_false, h2]

/-- `updateCondition` only touches the condition ledger. -/
theorem updateCondition_frame (nlb : NLB) (t : String) (s : ConditionStatus)
    (r m : String) (now : Nat) :
    (updateCondition nlb t s r m now).status.loadBalancerId = nlb.status.loadBalancerId ∧
    (updateCondition nlb t s r m now).status.listenerStatus = nlb.status.listenerStatus ∧
    (updateCondition nlb t s r m now).finalizers = nlb.finalizers := ⟨rfl, rfl, rfl⟩

/-- A successful `handleListeners` only rewrites the listener-status list. -/
theorem handleListeners_ok_frame (env : SdkEnv) (nlb nlb2 : NLB)
    (h : (handleListeners env nlb).1 = .ok nlb2) :
    ∃ l, nlb2 = { nlb with status := { nlb.status with listenerStatus := l } } := by
  simp only [handleListeners] at h
  cases hr : (handleListenersLoop env nlb.status.loadBalancerId
      (lookupPort nlb.status.listenerStatus) nlb.spec.listeners).1 with
  | error e => rw [hr] at h; simp at h
  | ok sts =>
    rw [hr] at h
    simp only [Except.ok.injEq] at h
    exact ⟨sts, h.symm⟩

/-- Every normal outcome of `reconcileTail` keeps the load-balancer id of the
object it was entered with. -/
theorem reconcileTail_ok_lbId (env : SdkEnv) (now : Nat) (nlb : NLB)
    (tr0 : List Call) (evs0 : List Event) (nlb' : NLB) (res : CtrlResult) (err : Option String)
    (h : (reconcileTail env now nlb tr0 evs0).outcome = .ok nlb' res err) :
    nlb'.status.loadBalancerId = nlb.status.loadBalancerId := by
  simp only [reconcileTail] at h
  cases hsg : (handleSecurityGroups env nlb).1 with
  | error e =>
    rw [hsg] at h
    simp only [RecOutcome.ok.injEq] at h
    rw [← h.1]
  | ok u =>
    cases u
    rw [hsg] at h
    cases hls : (handleListeners env nlb).1 with
    | error e =>
      rw [hls] at h
      simp only [RecOutcome.ok.injEq] at h
      rw [← h.1]
    | ok nlb2 =>
      rw [hls] at h
      simp only [RecOutcome.ok.injEq] at h
      obtain ⟨l, hl⟩ := handleListeners_ok_frame env nlb nlb2 hls
      rw [← h.1, (updateCondition_frame _ _ _ _ _ _).1, hl]

/-- C10: on the drift-reset transition only the three identity fields are
cleared — the condition ledger, the listener-status records, the spec, the
finalizers and the generation are untouched — and the surviving port-keyed
listener records make any later listener diff over the same records treat
those ports as already provisioned (no create call is issued for them). -/
theorem C10_drift_reset_frame (env : SdkEnv) (cnt now : Nat) (nlb : NLB)
    (h1 : ¬ nlb.status.loadBalancerId = "")
    (h2 : (GetLoadBalancer env cnt nlb.status.loadBalancerId).1 = .ok none) :
    ∃ nlb', (handleCreateOrUpdate env cnt now nlb).outcome = .ok nlb' ⟨true, 0⟩ none ∧
      nlb'.status.loadBalancerId = "" ∧ nlb'.status.dnsName = "" ∧
      nlb'.status.loadBalancerStatus = "" ∧
      nlb'.status.conditions = nlb.status.conditions ∧
      nlb'.status.listenerStatus = nlb.status.listenerStatus ∧
      nlb'.spec = nlb.spec ∧ nlb'.finalizers = nlb.finalizers ∧
      nlb'.generation = nlb.generation ∧
      (∀ (env2 : SdkEnv) (f2 : Int → String) (nlb2 : NLB),
        nlb2.status.listenerStatus = nlb'.status.listenerStatus →
        (∀ ls : ListenerSpec, CreateListener env2 nlb2.status.loadBalancerId ls =
          (.ok (f2 ls.listenerPort), [.createListener nlb2.status.loadBalancerId ls.listenerPort])) →
        ∀ p ∈ nlb.status.listenerStatus.map (fun s => s.listenerPort),
          Call.createListener nlb2.status.loadBalancerId p ∉ (handleListeners env2 nlb2).2) := by
  refine ⟨driftReset nlb, ?_, rfl, rfl, rfl, rfl, rfl, rfl, rfl, rfl, ?_⟩
  · rw [handleCreateOrUpdate_drift env cnt now nlb h1 h2]
  · intro env2 f2 nlb2 hsame henv2 p hp hmem
    rw [handleListeners_spec env2 nlb2 f2 henv2] at hmem
    rw [createdCalls] at hmem
    rcases List.mem_map.mp hmem with ⟨ls', hls', heq⟩
    have hport : ls'.listenerPort = p := by
      simpa [Call.createListener.injEq] using heq
    have hfil := List.of_mem_filter hls'
    rw [hport] at hfil
    have hnone : lookupPort nlb2.status.listenerStatus p = none := by
      cases hl : lookupPort nlb2.status.listenerStatus p with
      | none => rfl
      | some id => rw [hl] at hfil; simp at hfil
    rw [hsame] at hnone
    have : p ∉ nlb.status.listenerStatus.map (fun s => s.listenerPort) :=
      (lookupPort_eq_none _ _).mp hnone
    exact this hp

/-- C3: when a recorded load balancer is reported missing by the provider,
the controller resets the id, DNS name and lifecycle status to empty and
requeues immediately with no error; conversely this drift branch is the only
way either handler lets a status regress from a non-empty to an empty
load-balancer id, and `handleDeletion` never changes the recorded id. -/
theorem C3_drift_self_heal :
    (∀ (env : SdkEnv) (cnt now : Nat) (nlb : NLB),
      ¬ nlb.status.loadBalancerId = "" →
      (GetLoadBalancer env cnt nlb.status.loadBalancerId).1 = .ok none →
      (handleCreateOrUpdate env cnt now nlb).outcome = .ok (driftReset nlb) ⟨true, 0⟩ none ∧
        (driftReset nlb).status.loadBalancerId = "" ∧
        (driftReset nlb).status.dnsName = "" ∧
        (driftReset nlb).status.loadBalancerStatus = "") ∧
    (∀ (env : SdkEnv) (cnt now : Nat) (nlb nlb' : NLB) (res : CtrlResult) (err : Option String),
      ¬ nlb.status.loadBalancerId = "" →
      (handleCreateOrUpdate env cnt now nlb).outcome = .ok nlb' res err →
      nlb'.status.loadBalancerId = "" →
      (GetLoadBalancer env cnt nlb.status.loadBalancerId).1 = .ok none ∧
        nlb' = driftReset nlb ∧ res = ⟨true, 0⟩ ∧ err = none) ∧
    (∀ (env : SdkEnv) (cnt now : Nat) (nlb nlb' : NLB) (res : CtrlResult) (err : Option String),
      (handleDeletion env cnt now nlb).outcome = .ok nlb' res err →
      nlb'.status.loadBalancerId = nlb.status.loadBalancerId) := by
  refine ⟨?_, ?_, ?_⟩
  · intro env cnt now nlb h1 h2
    exact ⟨by rw [handleCreateOrUpdate_drift env cnt now nlb h1 h2], rfl, rfl, rfl⟩
  · intro env cnt now nlb nlb' res err h1 hout hzero
    have hbeq : (nlb.status.loadBalancerId == "") = false := by
      simp [beq_iff_eq]
      exact h1
    simp only [handleCreateOrUpdate, hbeq, Bool.false_eq_true, if_false] at hout
    cases hget : (GetLoadBalancer env cnt nlb.status.loadBalancerId).1 with
    | error e =>
      rw [hget] at hout
      simp only [RecOutcome.ok.injEq] at hout
      rw [← hout.1, (updateCondition_frame _ _ _ _ _ _).1] at hzero
      exact absurd hzero h1
    | ok o =>
      cases o with
      | none =>
        rw [hget] at hout
        simp only [RecOutcome.ok.injEq] at hout
        exact ⟨rfl, hout.1.symm, hout.2.1.symm, hout.2.2.symm⟩
      | some b =>
        rw [hget] at hout
        cases hdns : b.dnsName with
        | none => simp only [hdns] at hout; simp at hout
        | some dns =>
          cases hst : b.loadBalancerStatus with
          | none => simp only [hdns, hst] at hout; simp at hout
          | some st =>
            simp only [hdns, hst] at hout
            have := reconcileTail_ok_lbId env now
              { nlb with status := { nlb.status with dnsName := dns, loadBalancerStatus := st } }
              _ _ nlb' res err hout
            rw [this] at hzero
            exact absurd hzero h1
  · intro env cnt now nlb nlb' res err hout
    simp only [handleDeletion] at hout
    by_cases hfin : NLBFinalizer ∈ nlb.finalizers
    · rw [if_pos hfin] at hout
      set nlb1 := (if nlb.status.loadBalancerStatus != "Deleting" then
          updateCondition
            { nlb with status := { nlb.status with loadBalancerStatus := "Deleting" } }
            ConditionTypeReady .condFalse "Deleting" "NLB is being deleted" now
        else nlb) with hnlb1
      have h1id : nlb1.status.loadBalancerId = nlb.status.loadBalancerId := by
        rw [hnlb1]
        by_cases hdel : nlb.status.loadBalancerStatus != "Deleting"
        · rw [if_pos hdel, (updateCondition_frame _ _ _ _ _ _).1]
        · rw [if_neg hdel]
      cases hdl : (deleteListeners env nlb1.status.listenerStatus).1 with
      | error e =>
        rw [hdl] at hout
        simp only [RecOutcome.ok.injEq] at hout
        rw [← hout.1, h1id]
      | ok u =>
        cases u
        rw [hdl] at hout
        by_cases hlb : nlb1.status.loadBalancerId == ""
        · rw [if_pos hlb] at hout
          simp only [RecOutcome.ok.injEq] at hout
          rw [← hout.1, h1id]
        · rw [if_neg hlb] at hout
          cases hdb : (DeleteLoadBalancer env cnt nlb1.status.loadBalancerId).1 with
          | error e =>
            rw [hdb] at hout
            simp only [RecOutcome.ok.injEq] at hout
            rw [← hout.1, h1id]
          | ok u2 =>
            cases u2
            rw [hdb] at hout
            simp only [RecOutcome.ok.injEq] at hout
            rw [← hout.1, h1id]
    · rw [if_neg hfin] at hout
      simp only [RecOutcome.ok.injEq] at hout
      rw [← hout.1]

/-- Environment in which every attribute get reports ResourceNotFound. -/
def envNotFound : SdkEnv :=
  { envStub with getLoadBalancerAttribute := fun _ _ => .error "ResourceNotFound: it is gone" }

/-- A resource with a recorded load balancer and one listener record. -/
def nlbC10 : NLB :=
  ⟨[NLBFinalizer], 0, ⟨"", "Internet", "", [], [⟨"TCP", 80, "sg"⟩]⟩,
    ⟨"lb-0", "dns-0", "Active", [⟨"Ready", .condTrue, "ok", "", 0, 0⟩],
      [⟨80, "lsn-1", "Active"⟩]⟩⟩

/-- Witness for C10 at a drift scenario with one surviving listener record. -/
theorem C10_drift_reset_frame_witness :
    (¬ nlbC10.status.loadBalancerId = "") ∧
    ((GetLoadBalancer envNotFound 0 nlbC10.status.loadBalancerId).1 = .ok none) ∧
    (∃ nlb', (handleCreateOrUpdate envNotFound 0 0 nlbC10).outcome = .ok nlb' ⟨true, 0⟩ none ∧
      nlb'.status.loadBalancerId = "" ∧ nlb'.status.dnsName = "" ∧
      nlb'.status.loadBalancerStatus = "" ∧
      nlb'.status.conditions = nlbC10.status.conditions ∧
      nlb'.status.listenerStatus = nlbC10.status.listenerStatus ∧
      nlb'.spec = nlbC10.spec ∧ nlb'.finalizers = nlbC10.finalizers ∧
      nlb'.generation = nlbC10.generation ∧
      (∀ (env2 : SdkEnv) (f2 : Int → String) (nlb2 : NLB),
        nlb2.status.listenerStatus = nlb'.status.listenerStatus →
        (∀ ls : ListenerSpec, CreateListener env2 nlb2.status.loadBalancerId ls =
          (.ok (f2 ls.listenerPort), [.createListener nlb2.status.loadBalancerId ls.listenerPort])) →
        ∀ p ∈ nlbC10.status.listenerStatus.map (fun s => s.listenerPort),
          Call.createListener nlb2.status.loadBalancerId p ∉ (handleListeners env2 nlb2).2)) :=
  ⟨by decide, rfl, C10_drift_reset_frame envNotFound 0 0 nlbC10 (by decide) rfl⟩

/-- A resource with a recorded load balancer, for the C3 witness. -/
def nlbC3 : NLB :=
  ⟨[NLBFinalizer], 0, ⟨"", "Internet", "", [], []⟩, ⟨"lb-3", "dns-3", "Active", [], []⟩⟩

/-- Witness for C3: drift reset at a concrete NotFound environment. -/
theorem C3_drift_self_heal_witness :
    (¬ nlbC3.status.loadBalancerId = "") ∧
    ((GetLoadBalancer envNotFound 0 nlbC3.status.loadBalancerId).1 = .ok none) ∧
    ((handleCreateOrUpdate envNotFound 0 0 nlbC3).outcome =
        .ok (driftReset nlbC3) ⟨true, 0⟩ none ∧
      (driftReset nlbC3).status.loadBalancerId = "" ∧
      (driftReset nlbC3).status.dnsName = "" ∧
      (driftReset nlbC3).status.loadBalancerStatus = "") :=
  ⟨by decide, rfl, C3_drift_self_heal.1 envNotFound 0 0 nlbC3 (by decide) rfl⟩

/-! ## Nil dereference in the create path (C9) -/

/-- The load balancer exists (Active) for exactly the first attribute get of
the pass and is gone afterwards; creation succeeds. -/
def envC9 : SdkEnv :=
  { envStub with
    createLoadBalancer := .ok (some ⟨some "lb-new"⟩),
    getLoadBalancerAttribute := fun cnt _ =>
      if cnt == 0 then .ok (some ⟨some "dns-9", some "Active"⟩)
      else .error "ResourceNotFound: vanished" }

/-- A fresh resource (no recorded load balancer). -/
def nlbC9 : NLB := ⟨[NLBFinalizer], 0, ⟨"n", "Internet", "v", [], []⟩, ⟨"", "", "", [], []⟩⟩

/-- C9: in the create path, after the create succeeds and the wait-until-
active succeeds (the first get reports Active), the follow-up attribute get
returns the non-error nil result (NotFound), and the controller's unguarded
dereference of its fields panics: the fetch-attributes step is not total
over all non-error get results. -/
theorem C9_nil_deref :
    (CreateLoadBalancer envC9 nlbC9).1 = .ok "lb-new" ∧
    (WaitLoadBalancerActive envC9 0 "lb-new").1 = .ok () ∧
    (GetLoadBalancer envC9 1 "lb-new").1 = .ok none ∧
    (handleCreateOrUpdate envC9 0 0 nlbC9).outcome = .panic nilDerefMsg := by
  refine ⟨rfl, rfl, rfl, ?_⟩
  decide

/-! ## Sub-step failure after the load balancer is present (C6) -/

/-- The refresh of DNS name and lifecycle status from live attributes. -/
def refreshStatus (nlb : NLB) (dns st : String) : NLB :=
  { nlb with status := { nlb.status with dnsName := dns, loadBalancerStatus := st } }

/-- The get succeeds (Active), but creating the missing listener fails. -/
def envC6 : SdkEnv :=
  { envStub with
    getLoadBalancerAttribute := fun _ _ => .ok (some ⟨some "dns-6", some "Active"⟩),
    createListener := fun _ _ => .error "boom" }

/-- Recorded load balancer, one desired listener, no listener records, no
security groups, empty condition ledger. -/
def nlbC6 : NLB :=
  ⟨[NLBFinalizer], 0, ⟨"", "Internet", "", [], [⟨"TCP", 80, "sg"⟩]⟩, ⟨"lb-6", "", "", [], []⟩⟩

/-- The object as it stands when the listener sub-step fails. -/
def nlbC6out : NLB :=
  ⟨[NLBFinalizer], 0, ⟨"", "Internet", "", [], [⟨"TCP", 80, "sg"⟩]⟩, ⟨"lb-6", "dns-6", "Active", [], []⟩⟩

/-- C6 counterexample: a listener sub-step failure returns the delayed(30s)
retry directive and propagates the error, but the condition ledger stays
empty — no `Error=True` condition is appended, contradicting the claim that
the event and the condition are updated together. -/
theorem C6_counterexample :
    (handleCreateOrUpdate envC6 0 0 nlbC6).outcome =
      .ok nlbC6out ⟨false, 30⟩
        (some "failed to create listener on port 80: failed to create listener: boom") ∧
    (handleCreateOrUpdate envC6 0 0 nlbC6).events =
      [⟨"Warning", ReasonReconcileError,
        "Failed to handle listeners: failed to create listener on port 80: failed to create listener: boom"⟩] ∧
    nlbC6out.status.conditions = [] := by
  refine ⟨?_, ?_, rfl⟩ <;> decide

/-- Replacing (or appending) a condition of one type leaves the entries of
every other type untouched. -/
theorem replaceFirst_filter_other (l : List Condition) (c : Condition) (T : String)
    (h : ¬ c.type_ = T) :
    (replaceFirstCondition l c).filter (fun x => x.type_ == T) =
      l.filter (fun x => x.type_ == T) := by
  induction l with
  | nil =>
    have hcT : (c.type_ == T) = false := by
      rw [beq_eq_false_iff_ne]
      exact h
    simp [replaceFirstCondition, hcT]
  | cons x rest ih =>
    simp only [replaceFirstCondition]
    by_cases hx : x.type_ = c.type_
    · have hcT : (c.type_ == T) = false := by
        rw [beq_eq_false_iff_ne]
        exact h
      have hxT : (x.type_ == T) = false := by
        rw [beq_eq_false_iff_ne]
        rw [hx]
        exact h
      simp only [beq_iff_eq, hx, if_true, List.filter_cons, hcT, hxT]
      simp
    · simp only [beq_iff_eq, hx, if_false, List.filter_cons]
      rw [ih]

/-- The object as it stands when the fresh-create branch reaches the shared
tail: id and Provisioning written, the Ready=False/Provisioning condition
recorded, then DNS name and lifecycle status refreshed from the live
attributes. -/
def createdRefreshed (nlb : NLB) (lbNew dns st : String) (now : Nat) : NLB :=
  refreshStatus
    (updateCondition
      { nlb with status :=
          { nlb.status with loadBalancerId := lbNew, loadBalancerStatus := "Provisioning" } }
      ConditionTypeReady .condFalse "Provisioning" "NLB instance is being created" now)
    dns st

/-- C6 (amended): whenever the security-group or listener sub-step fails
after the load balancer is confirmed present — in either branch — the
controller returns the delayed(30s) retry directive, propagates the error,
and emits a Warning event with the reconcile-error reason as the final event
of the pass, but appends no Error condition: the Error-type entries of the
ledger are exactly those the call entered with.  In the already-recorded
branch the whole ledger is untouched; in the fresh-create branch the only
ledger change of the pass is the earlier Ready=False/Provisioning write. -/
theorem C6_substep_failure :
    (∀ (env : SdkEnv) (cnt now : Nat) (nlb : NLB) (b : GetLoadBalancerBody)
        (dns st e : String),
      ¬ nlb.status.loadBalancerId = "" →
      (GetLoadBalancer env cnt nlb.status.loadBalancerId).1 = .ok (some b) →
      b.dnsName = some dns → b.loadBalancerStatus = some st →
      ((handleSecurityGroups env (refreshStatus nlb dns st)).1 = .error e ∨
        ((handleSecurityGroups env (refreshStatus nlb dns st)).1 = .ok () ∧
         (handleListeners env (refreshStatus nlb dns st)).1 = .error e)) →
      (handleCreateOrUpdate env cnt now nlb).outcome =
        .ok (refreshStatus nlb dns st) ⟨false, 30⟩ (some e) ∧
      (refreshStatus nlb dns st).status.conditions = nlb.status.conditions ∧
      (refreshStatus nlb dns st).status.conditions.filter
          (fun c => c.type_ == ConditionTypeError) =
        nlb.status.conditions.filter (fun c => c.type_ == ConditionTypeError) ∧
      (∃ m, (handleCreateOrUpdate env cnt now nlb).events =
        [⟨"Warning", ReasonReconcileError, m⟩])) ∧
    (∀ (env : SdkEnv) (cnt now : Nat) (nlb : NLB) (b : GetLoadBalancerBody)
        (lbNew dns st e : String),
      nlb.status.loadBalancerId = "" →
      (CreateLoadBalancer env nlb).1 = .ok lbNew →
      (WaitLoadBalancerActive env cnt lbNew).1 = .ok () →
      (GetLoadBalancer env (cnt + (WaitLoadBalancerActive env cnt lbNew).2.length) lbNew).1 =
        .ok (some b) →
      b.dnsName = some dns → b.loadBalancerStatus = some st →
      ((handleSecurityGroups env (createdRefreshed nlb lbNew dns st now)).1 = .error e ∨
        ((handleSecurityGroups env (createdRefreshed nlb lbNew dns st now)).1 = .ok () ∧
         (handleListeners env (createdRefreshed nlb lbNew dns st now)).1 = .error e)) →
      (handleCreateOrUpdate env cnt now nlb).outcome =
        .ok (createdRefreshed nlb lbNew dns st now) ⟨false, 30⟩ (some e) ∧
      (createdRefreshed nlb lbNew dns st now).status.conditions.filter
          (fun c => c.type_ == ConditionTypeError) =
        nlb.status.conditions.filter (fun c => c.type_ == ConditionTypeError) ∧
      (createdRefreshed nlb lbNew dns st now).status.conditions =
        replaceFirstCondition nlb.status.conditions
          ⟨ConditionTypeReady, .condFalse, "Provisioning", "NLB instance is being created",
            now, nlb.generation⟩ ∧
      (∃ m, (handleCreateOrUpdate env cnt now nlb).events =
        [⟨"Normal", ReasonReconcileSuccess, "Successfully created NLB: " ++ lbNew⟩,
         ⟨"Warning", ReasonReconcileError, m⟩])) := by
  constructor
  · intro env cnt now nlb b dns st e h1 hg hd hs hfail
    have hbeq : (nlb.status.loadBalancerId == "") = false := by
      simp [beq_iff_eq]
      exact h1
    have hmain : handleCreateOrUpdate env cnt now nlb =
        reconcileTail env now (refreshStatus nlb dns st)
          (GetLoadBalancer env cnt nlb.status.loadBalancerId).2 [] := by
      simp only [handleCreateOrUpdate, hbeq, Bool.false_eq_true, if_false, hg, hd, hs]
      rfl
    rw [hmain]
    rcases hfail with hsg | ⟨hsg, hls⟩
    · rw [reconcileTail, hsg]
      exact ⟨rfl, rfl, rfl, ⟨"Failed to handle security groups: " ++ e, by simp⟩⟩
    · rw [reconcileTail, hsg]
      simp only [hls]
      exact ⟨by simp, rfl, rfl, ⟨"Failed to handle listeners: " ++ e, by simp⟩⟩
  · intro env cnt now nlb b lbNew dns st e h0 hcr hw hg hd hs hfail
    have hbeq : (nlb.status.loadBalancerId == "") = true := by
      simp [beq_iff_eq]
      exact h0
    have hmain : handleCreateOrUpdate env cnt now nlb =
        reconcileTail env now (createdRefreshed nlb lbNew dns st now)
          ((CreateLoadBalancer env nlb).2 ++ (WaitLoadBalancerActive env cnt lbNew).2 ++
            (GetLoadBalancer env
              (cnt + (WaitLoadBalancerActive env cnt lbNew).2.length) lbNew).2)
          [⟨"Normal", ReasonReconcileSuccess, "Successfully created NLB: " ++ lbNew⟩] := by
      simp only [handleCreateOrUpdate, hbeq, if_true, hcr, hw, hg, hd, hs]
      rfl
    have hfilter : (createdRefreshed nlb lbNew dns st now).status.conditions.filter
          (fun c => c.type_ == ConditionTypeError) =
        nlb.status.conditions.filter (fun c => c.type_ == ConditionTypeError) :=
      replaceFirst_filter_other nlb.status.conditions
        ⟨ConditionTypeReady, .condFalse, "Provisioning", "NLB instance is being created",
          now, nlb.generation⟩ ConditionTypeError
        (by simp [ConditionTypeReady, ConditionTypeError])
    rw [hmain]
    rcases hfail with hsg | ⟨hsg, hls⟩
    · rw [reconcileTail, hsg]
      exact ⟨rfl, hfilter, rfl, ⟨"Failed to handle security groups: " ++ e, by simp⟩⟩
    · rw [reconcileTail, hsg]
      simp only [hls]
      exact ⟨by simp, hfilter, rfl, ⟨"Failed to handle listeners: " ++ e, by simp⟩⟩

/-- The fresh-create scenario for the C6 witness: creation succeeds, the
wait sees Active at once, the attribute fetch succeeds, and the listener
create fails. -/
def envC6b : SdkEnv :=
  { envStub with
    createLoadBalancer := .ok (some ⟨some "lb-6b"⟩),
    getLoadBalancerAttribute := fun _ _ => .ok (some ⟨some "dns-6", some "Active"⟩),
    createListener := fun _ _ => .error "boom" }

/-- A fresh resource (no recorded load balancer), one desired listener, no
security groups, empty condition ledger. -/
def nlbC6b : NLB :=
  ⟨[NLBFinalizer], 0, ⟨"", "Internet", "", [], [⟨"TCP", 80, "sg"⟩]⟩, ⟨"", "", "", [], []⟩⟩

/-- Witness for C6 (amended): both branches at concrete failing-listener
scenarios — the already-recorded branch on `nlbC6`, the fresh-create branch
on `nlbC6b`. -/
theorem C6_substep_failure_witness :
    ((¬ nlbC6.status.loadBalancerId = "") ∧
     ((GetLoadBalancer envC6 0 nlbC6.status.loadBalancerId).1 =
       .ok (some ⟨some "dns-6", some "Active"⟩)) ∧
     ((handleSecurityGroups envC6 (refreshStatus nlbC6 "dns-6" "Active")).1 = .ok () ∧
       (handleListeners envC6 (refreshStatus nlbC6 "dns-6" "Active")).1 =
         Except.error "failed to create listener on port 80: failed to create listener: boom") ∧
     ((handleCreateOrUpdate envC6 0 0 nlbC6).outcome =
         .ok (refreshStatus nlbC6 "dns-6" "Active") ⟨false, 30⟩
           (some "failed to create listener on port 80: failed to create listener: boom") ∧
       (refreshStatus nlbC6 "dns-6" "Active").status.conditions = nlbC6.status.conditions ∧
       (refreshStatus nlbC6 "dns-6" "Active").status.conditions.filter
           (fun c => c.type_ == ConditionTypeError) =
         nlbC6.status.conditions.filter (fun c => c.type_ == ConditionTypeError) ∧
       (∃ m, (handleCreateOrUpdate envC6 0 0 nlbC6).events =
         [⟨"Warning", ReasonReconcileError, m⟩]))) ∧
    ((nlbC6b.status.loadBalancerId = "") ∧
     ((CreateLoadBalancer envC6b nlbC6b).1 = .ok "lb-6b") ∧
     ((WaitLoadBalancerActive envC6b 0 "lb-6b").1 = .ok ()) ∧
     ((GetLoadBalancer envC6b
         (0 + (WaitLoadBalancerActive envC6b 0 "lb-6b").2.length) "lb-6b").1 =
       .ok (some ⟨some "dns-6", some "Active"⟩)) ∧
     ((handleSecurityGroups envC6b (createdRefreshed nlbC6b "lb-6b" "dns-6" "Active" 0)).1 =
         .ok () ∧
       (handleListeners envC6b (createdRefreshed nlbC6b "lb-6b" "dns-6" "Active" 0)).1 =
         Except.error "failed to create listener on port 80: failed to create listener: boom") ∧
     ((handleCreateOrUpdate envC6b 0 0 nlbC6b).outcome =
         .ok (createdRefreshed nlbC6b "lb-6b" "dns-6" "Active" 0) ⟨false, 30⟩
           (some "failed to create listener on port 80: failed to create listener: boom") ∧
       (createdRefreshed nlbC6b "lb-6b" "dns-6" "Active" 0).status.conditions.filter
           (fun c => c.type_ == ConditionTypeError) =
         nlbC6b.status.conditions.filter (fun c => c.type_ == ConditionTypeError) ∧
       (createdRefreshed nlbC6b "lb-6b" "dns-6" "Active" 0).status.conditions =
         replaceFirstCondition nlbC6b.status.conditions
           ⟨ConditionTypeReady, .condFalse, "Provisioning", "NLB instance is being created",
             0, nlbC6b.generation⟩ ∧
       (∃ m, (handleCreateOrUpdate envC6b 0 0 nlbC6b).events =
         [⟨"Normal", ReasonReconcileSuccess, "Successfully created NLB: " ++ "lb-6b"⟩,
          ⟨"Warning", ReasonReconcileError, m⟩]))) :=
  ⟨⟨by decide, rfl, ⟨rfl, rfl⟩,
    C6_substep_failure.1 envC6 0 0 nlbC6 ⟨some "dns-6", some "Active"⟩ "dns-6" "Active"
      "failed to create listener on port 80: failed to create listener: boom"
      (by decide) rfl rfl rfl (Or.inr ⟨rfl, rfl⟩)⟩,
   ⟨rfl, rfl, rfl, rfl, ⟨rfl, rfl⟩,
    C6_substep_failure.2 envC6b 0 0 nlbC6b ⟨some "dns-6", some "Active"⟩ "lb-6b" "dns-6"
      "Active" "failed to create listener on port 80: failed to create listener: boom"
      rfl rfl rfl rfl rfl rfl (Or.inr ⟨rfl, rfl⟩)⟩⟩

/-! ## Load-balancer delete protocol (C8) -/

theorem GetLoadBalancer_calls (env : SdkEnv) (cnt : Nat) (lbId : String) :
    (GetLoadBalancer env cnt lbId).2 = [.getLoadBalancer lbId] := by
  unfold GetLoadBalancer
  cases env.getLoadBalancerAttribute cnt lbId with
  | error e => by_cases h : strContains e "ResourceNotFound" <;> simp [h]
  | ok o => cases o <;> rfl

theorem UpdateProtection_calls (env : SdkEnv) (lbId : String) (enabled : Bool) :
    (UpdateLoadBalancerProtection env lbId enabled).2 = [.updateProtection lbId enabled] := by
  unfold UpdateLoadBalancerProtection
  cases env.updateLoadBalancerProtection lbId enabled with
  | error e => rfl
  | ok o => cases o <;> rfl

theorem deleteLBCore_trace (env : SdkEnv) (lbId : String) (tr0 : List Call) :
    ∃ x, (deleteLBCore env lbId tr0).2 = tr0 ++ x := by
  unfold deleteLBCore
  cases env.deleteLoadBalancer lbId with
  | error e =>
    by_cases h : strContains e "ResourceNotFound" <;> simp [h]
  | ok o =>
    cases o with
    | none => simp
    | some b => cases hj : b.jobId <;> simp [hj]

theorem deleteLBCore_mem (env : SdkEnv) (lbId : String) (tr0 : List Call) :
    Call.deleteLoadBalancer lbId ∈ (deleteLBCore env lbId tr0).2 := by
  unfold deleteLBCore
  cases env.deleteLoadBalancer lbId with
  | error e =>
    by_cases h : strContains e "ResourceNotFound" <;>
      simp [h, List.mem_append]
  | ok o =>
    cases o with
    | none => simp [List.mem_append]
    | some b =>
      cases hj : b.jobId <;> simp [hj, List.mem_append]

/-- Environment for a clean delete: get sees the balancer, protection
disable succeeds, delete succeeds with no job. -/
def envC8 : SdkEnv :=
  { envStub with
    getLoadBalancerAttribute := fun _ _ => .ok (some ⟨some "dns-8", some "Active"⟩),
    updateLoadBalancerProtection := fun _ _ => .ok (some ⟨⟩),
    deleteLoadBalancer := fun _ => .ok (some ⟨none⟩) }

/-- C8 counterexample: the first request a delete issues is the attribute
get, not the protection disable; and when that get reports NotFound the
whole delete succeeds with no protection call and no delete call ever
issued, so "the delete first issues a set-deletion-protection=false call"
is false on the code. -/
theorem C8_counterexample :
    (DeleteLoadBalancer envC8 0 "lb-8").2 =
      [.getLoadBalancer "lb-8", .updateProtection "lb-8" false, .deleteLoadBalancer "lb-8"] ∧
    (DeleteLoadBalancer envC8 0 "lb-8").2.head? = some (.getLoadBalancer "lb-8") ∧
    DeleteLoadBalancer envNotFound 0 "lb-8" = (.ok (), [.getLoadBalancer "lb-8"]) := by
  exact ⟨rfl, rfl, rfl⟩

/-- C8 (amended): the delete first issues an attribute get; a NotFound there
short-circuits the whole delete as already-done before any protection call;
otherwise the protection disable is issued, a NotFound from it
short-circuits the delete as already-done without the delete request, and on
any other protection outcome (success or a logged non-NotFound error) the
delete request is issued anyway. -/
theorem C8_delete_protocol (env : SdkEnv) (cnt : Nat) (lbId : String) :
    (∃ tr', (DeleteLoadBalancer env cnt lbId).2 = .getLoadBalancer lbId :: tr') ∧
    ((GetLoadBalancer env cnt lbId).1 = .ok none →
      DeleteLoadBalancer env cnt lbId = (.ok (), [.getLoadBalancer lbId])) ∧
    (∀ pe, ¬ (GetLoadBalancer env cnt lbId).1 = .ok none →
      (UpdateLoadBalancerProtection env lbId false).1 = .error pe →
      strContains pe "ResourceNotFound" = true →
      DeleteLoadBalancer env cnt lbId =
        (.ok (), [.getLoadBalancer lbId, .updateProtection lbId false])) ∧
    (¬ (GetLoadBalancer env cnt lbId).1 = .ok none →
      (∀ pe, (UpdateLoadBalancerProtection env lbId false).1 = .error pe →
        strContains pe "ResourceNotFound" = false) →
      Call.deleteLoadBalancer lbId ∈ (DeleteLoadBalancer env cnt lbId).2) := by
  rcases hG : GetLoadBalancer env cnt lbId with ⟨gr, gtr⟩
  have hgtr : gtr = [.getLoadBalancer lbId] := by
    have := GetLoadBalancer_calls env cnt lbId
    rw [hG] at this
    exact this
  rcases hP : UpdateLoadBalancerProtection env lbId false with ⟨pr, ptr⟩
  have hptr : ptr = [.updateProtection lbId false] := by
    have := UpdateProtection_calls env lbId false
    rw [hP] at this
    exact this
  subst hgtr hptr
  refine ⟨?_, ?_, ?_, ?_⟩
  · simp only [DeleteLoadBalancer, hG, hP]
    cases gr with
    | error e =>
      cases pr with
      | error pe =>
        by_cases h : strContains pe "ResourceNotFound"
        · exact ⟨[.updateProtection lbId false], by simp [h]⟩
        · rw [Bool.not_eq_true] at h
          simp only [h, Bool.false_eq_true, if_false]
          obtain ⟨x, hx⟩ := deleteLBCore_trace env lbId
            ([Call.getLoadBalancer lbId] ++ [Call.updateProtection lbId false])
          exact ⟨[Call.updateProtection lbId false] ++ x, by rw [hx]; simp⟩
      | ok u =>
        cases u
        obtain ⟨x, hx⟩ := deleteLBCore_trace env lbId
          ([Call.getLoadBalancer lbId] ++ [Call.updateProtection lbId false])
        exact ⟨[Call.updateProtection lbId false] ++ x, by rw [hx]; simp⟩
    | ok o =>
      cases o with
      | none => exact ⟨[], rfl⟩
      | some b =>
        cases pr with
        | error pe =>
          by_cases h : strContains pe "ResourceNotFound"
          · exact ⟨[.updateProtection lbId false], by simp [h]⟩
          · rw [Bool.not_eq_true] at h
            simp only [h, Bool.false_eq_true, if_false]
            obtain ⟨x, hx⟩ := deleteLBCore_trace env lbId
              ([Call.getLoadBalancer lbId] ++ [Call.updateProtection lbId false])
            exact ⟨[Call.updateProtection lbId false] ++ x, by rw [hx]; simp⟩
        | ok u =>
          cases u
          obtain ⟨x, hx⟩ := deleteLBCore_trace env lbId
            ([Call.getLoadBalancer lbId] ++ [Call.updateProtection lbId false])
          exact ⟨[Call.updateProtection lbId false] ++ x, by rw [hx]; simp⟩
  · intro hnone
    simp only at hnone
    subst hnone
    simp [DeleteLoadBalancer, hG]
  · intro pe hne hpe hcontains
    simp only at hne hpe
    subst hpe
    simp only [DeleteLoadBalancer, hG, hP]
    cases gr with
    | error e => simp [hcontains]
    | ok o =>
      cases o with
      | none => exact absurd rfl hne
      | some b => simp [hcontains]
  · intro hne hprot
    simp only at hne
    simp only [DeleteLoadBalancer, hG, hP]
    cases gr with
    | error e =>
      cases pr with
      | error pe =>
        have hc := hprot pe rfl
        simp only [hc, Bool.false_eq_true, if_false]
        exact deleteLBCore_mem env lbId _
      | ok u =>
        cases u
        exact deleteLBCore_mem env lbId _
    | ok o =>
      cases o with
      | none => exact absurd rfl hne
      | some b =>
        cases pr with
        | error pe =>
          have hc := hprot pe rfl
          simp only [hc, Bool.false_eq_true, if_false]
          exact deleteLBCore_mem env lbId _
        | ok u =>
          cases u
          exact deleteLBCore_mem env lbId _

/-- Witness for C8 at the clean-delete environment: the get does not report
NotFound, the protection call does not fail, and the delete request is
issued. -/
theorem C8_delete_protocol_witness :
    (¬ (GetLoadBalancer envC8 0 "lb-8").1 = .ok none) ∧
    (∀ pe, (UpdateLoadBalancerProtection envC8 "lb-8" false).1 = .error pe →
      strContains pe "ResourceNotFound" = false) ∧
    Call.deleteLoadBalancer "lb-8" ∈ (DeleteLoadBalancer envC8 0 "lb-8").2 :=
  ⟨fun h => Option.noConfusion (Except.ok.inj h),
   fun _ hpe => Except.noConfusion hpe,
   (C8_delete_protocol envC8 0 "lb-8").2.2.2
     (fun h => Option.noConfusion (Except.ok.inj h))
     (fun _ hpe => Except.noConfusion hpe)⟩

/-! ## Deletion re-entrancy (C7) -/

/-- When every delete-listener request is answered with ResourceNotFound,
every record with a non-empty id still gets its delete request issued, each
treated as success, in listed order. -/
theorem deleteListeners_notFound (env : SdkEnv)
    (hdel : ∀ id, ∃ e, env.deleteListener id = .error e ∧
      strContains e "ResourceNotFound" = true) :
    ∀ l : List ListenerStatus,
      deleteListeners env l =
        (.ok (), (l.filter (fun s => !(s.listenerId == ""))).map
          (fun s => Call.deleteListener s.listenerId)) := by
  intro l
  induction l with
  | nil => simp [deleteListeners]
  | cons s rest ih =>
    obtain ⟨e, he, hc⟩ := hdel s.listenerId
    by_cases hid : s.listenerId == ""
    · simp [deleteListeners, hid, ih]
    · have hD : DeleteListener env s.listenerId = (.ok (), [.deleteListener s.listenerId]) := by
        simp [DeleteListener, he, hc]
      simp only [deleteListeners, hid, Bool.false_eq_true, if_false, hD]
      simp [ih, List.filter_cons, hid]

/-- The finalizer never survives its own removal. -/
theorem finalizer_not_mem_filter (l : List String) :
    NLBFinalizer ∉ l.filter (fun s => s != NLBFinalizer) := by
  intro h
  have := List.of_mem_filter h
  simp at this

/-- All listener records already deleted at the provider, the load balancer
also gone. -/
def envC7 : SdkEnv :=
  { envStub with
    deleteListener := fun _ => .error "ResourceNotFound: no such listener",
    getLoadBalancerAttribute := fun _ _ => .error "ResourceNotFound: it is gone" }

/-- Second Terminating pass: the status still records both listeners. -/
def nlbC7 : NLB :=
  ⟨[NLBFinalizer], 0, ⟨"", "Internet", "", [], []⟩,
    ⟨"lb-7", "", "Deleting", [], [⟨80, "lsn-1", "Active"⟩, ⟨443, "lsn-2", "Active"⟩]⟩⟩

/-- C7 counterexample: on the second Terminating pass the controller *does*
re-issue the delete requests for the already-deleted listeners (they are
still recorded in status) — contradicting the claim that they are not
re-attempted — while still finishing with no error. -/
theorem C7_counterexample :
    Call.deleteListener "lsn-1" ∈ (handleDeletion envC7 0 0 nlbC7).calls ∧
    Call.deleteListener "lsn-2" ∈ (handleDeletion envC7 0 0 nlbC7).calls ∧
    (handleDeletion envC7 0 0 nlbC7).outcome =
      .ok { nlbC7 with finalizers := [] } ⟨false, 0⟩ none := by
  refine ⟨?_, ?_, ?_⟩ <;> decide

/-- C7 (amended): re-invoking the Terminating path after the provider-side
resources are gone re-issues one delete request per recorded listener with a
non-empty id, but each absence is treated as success (NotFound maps to ok),
the pass returns no error and removes the deletion guard. -/
theorem C7_reentrant_deletion (env : SdkEnv) (cnt now : Nat) (nlb : NLB)
    (hfin : NLBFinalizer ∈ nlb.finalizers)
    (hdel : ∀ id, ∃ e, env.deleteListener id = .error e ∧
      strContains e "ResourceNotFound" = true)
    (hlb : (GetLoadBalancer env cnt nlb.status.loadBalancerId).1 = .ok none) :
    ∃ nlb', (handleDeletion env cnt now nlb).outcome = .ok nlb' ⟨false, 0⟩ none ∧
      NLBFinalizer ∉ nlb'.finalizers ∧
      (∀ s ∈ nlb.status.listenerStatus, ¬ s.listenerId = "" →
        Call.deleteListener s.listenerId ∈ (handleDeletion env cnt now nlb).calls) := by
  simp only [handleDeletion, if_pos hfin]
  set nlb1 := (if nlb.status.loadBalancerStatus != "Deleting" then
      updateCondition
        { nlb with status := { nlb.status with loadBalancerStatus := "Deleting" } }
        ConditionTypeReady .condFalse "Deleting" "NLB is being deleted" now
    else nlb) with hnlb1
  have h1ls : nlb1.status.listenerStatus = nlb.status.listenerStatus := by
    rw [hnlb1]
    by_cases hdl : nlb.status.loadBalancerStatus != "Deleting"
    · rw [if_pos hdl]; rfl
    · rw [if_neg hdl]
  have h1id : nlb1.status.loadBalancerId = nlb.status.loadBalancerId := by
    rw [hnlb1]
    by_cases hdl : nlb.status.loadBalancerStatus != "Deleting"
    · rw [if_pos hdl]; rfl
    · rw [if_neg hdl]
  have h1fin : nlb1.finalizers = nlb.finalizers := by
    rw [hnlb1]
    by_cases hdl : nlb.status.loadBalancerStatus != "Deleting"
    · rw [if_pos hdl]; rfl
    · rw [if_neg hdl]
  have hDL := deleteListeners_notFound env hdel nlb1.status.listenerStatus
  rw [hDL]
  have hmem : ∀ s ∈ nlb.status.listenerStatus, ¬ s.listenerId = "" →
      Call.deleteListener s.listenerId ∈
        ((nlb1.status.listenerStatus.filter (fun s => !(s.listenerId == ""))).map
          (fun s => Call.deleteListener s.listenerId)) := by
    intro s hs hid
    rw [h1ls]
    exact List.mem_map_of_mem _ (List.mem_filter.mpr ⟨hs, by simp [hid]⟩)
  by_cases hempty : nlb1.status.loadBalancerId == ""
  · rw [if_pos hempty]
    refine ⟨_, rfl, ?_, ?_⟩
    · rw [h1fin]
      exact finalizer_not_mem_filter nlb.finalizers
    · intro s hs hid
      exact hmem s hs hid
  · rw [if_neg hempty]
    have hDB : DeleteLoadBalancer env cnt nlb1.status.loadBalancerId =
        (.ok (), [.getLoadBalancer nlb1.status.loadBalancerId]) := by
      rw [h1id]
      rcases hG : GetLoadBalancer env cnt nlb.status.loadBalancerId with ⟨gr, gtr⟩
      rw [hG] at hlb
      simp only at hlb
      subst hlb
      have hgtr : gtr = [.getLoadBalancer nlb.status.loadBalancerId] := by
        have := GetLoadBalancer_calls env cnt nlb.status.loadBalancerId
        rw [hG] at this
        exact this
      subst hgtr
      simp [DeleteLoadBalancer, hG]
    rw [hDB]
    refine ⟨_, rfl, ?_, ?_⟩
    · rw [h1fin]
      exact finalizer_not_mem_filter nlb.finalizers
    · intro s hs hid
      exact List.mem_append_left _ (hmem s hs hid)

/-- Witness for C7 (amended) at the concrete second-pass environment. -/
theorem C7_reentrant_deletion_witness :
    (NLBFinalizer ∈ nlbC7.finalizers) ∧
    (∀ id, ∃ e, envC7.deleteListener id = .error e ∧
      strContains e "ResourceNotFound" = true) ∧
    ((GetLoadBalancer envC7 0 nlbC7.status.loadBalancerId).1 = .ok none) ∧
    (∃ nlb', (handleDeletion envC7 0 0 nlbC7).outcome = .ok nlb' ⟨false, 0⟩ none ∧
      NLBFinalizer ∉ nlb'.finalizers ∧
      (∀ s ∈ nlbC7.status.listenerStatus, ¬ s.listenerId = "" →
        Call.deleteListener s.listenerId ∈ (handleDeletion envC7 0 0 nlbC7).calls)) :=
  ⟨by decide,
   fun _ => ⟨"ResourceNotFound: no such listener", rfl, by decide⟩,
   rfl,
   C7_reentrant_deletion envC7 0 0 nlbC7 (by decide)
     (fun _ => ⟨"ResourceNotFound: no such listener", rfl, by decide⟩) rfl⟩

/-! ## Deletion ordering protocol (C2) -/

/-- One poll attempt issues exactly one job-status request. -/
theorem jobPollCond_calls (env : SdkEnv) (jobId : String) (attempt : Nat) :
    (jobPollCond env jobId attempt).2 = [.getJobStatus jobId] := by
  unfold jobPollCond
  cases env.getJobStatus attempt jobId with
  | error e => rfl
  | ok o =>
    cases o with
    | none => rfl
    | some b =>
      by_cases h1 : b.status.getD "" == "Succeeded"
      · simp [h1]
      · by_cases h2 : b.status.getD "" == "Failed" <;> simp [h1, h2]

/-- Every request a job wait issues is a job-status poll. -/
theorem jobPoll_calls (env : SdkEnv) (jobId : String) :
    ∀ (fuel i : Nat), ∀ c ∈ (pollImmediate (jobPollCond env jobId) i fuel).2,
      c = .getJobStatus jobId := by
  intro fuel
  induction fuel with
  | zero => intro i c hc; simp [pollImmediate] at hc
  | succ k ih =>
    intro i c hc
    rcases hcond : jobPollCond env jobId i with ⟨r, tr⟩
    have htr : tr = [Call.getJobStatus jobId] := by
      have := jobPollCond_calls env jobId i
      rw [hcond] at this
      exact this
    subst htr
    simp only [pollImmediate, hcond] at hc
    cases r with
    | error e => simpa using hc
    | ok b =>
      cases b with
      | true => simpa using hc
      | false =>
        simp only [List.mem_append] at hc
        rcases hc with hc | hc
        · simpa using hc
        · exact ih (i + 1) c hc

/-- A delete-listener request is the head of the client call's trace; the
rest are job polls (neither listener deletes nor balancer deletes). -/
theorem DeleteListener_trace (env : SdkEnv) (id : String) :
    ∃ jt, (DeleteListener env id).2 = .deleteListener id :: jt ∧
      ∀ c ∈ jt, c.isDelListener = false ∧ c.isDelLB = false := by
  unfold DeleteListener
  cases env.deleteListener id with
  | error e =>
    by_cases h : strContains e "ResourceNotFound" <;> simp [h]
  | ok o =>
    cases o with
    | none => simp
    | some b =>
      cases hj : b.jobId with
      | none => simp [hj]
      | some j =>
        refine ⟨(waitJobFinish env j).2, by simp [hj], ?_⟩
        intro c hc
        have := jobPoll_calls env j (pollAttempts 3 180) 0 c hc
        subst this
        exact ⟨rfl, rfl⟩

/-- The delete requests owed for the recorded listeners: one per record with
a non-empty id, in listed order. -/
def nonEmptyListenerDeletes (l : List ListenerStatus) : List Call :=
  (l.filter (fun s => !(s.listenerId == ""))).map (fun s => Call.deleteListener s.listenerId)

/-- Trace discipline of the listener-deletion loop: it never issues a
balancer delete; the listener deletes it issues are a prefix of the owed
list, in order; and when the loop succeeds the prefix is the whole list. -/
theorem deleteListeners_spec (env : SdkEnv) :
    ∀ l : List ListenerStatus,
      (∀ c ∈ (deleteListeners env l).2, c.isDelLB = false) ∧
      (∃ k, (deleteListeners env l).2.filter Call.isDelListener =
        (nonEmptyListenerDeletes l).take k) ∧
      ((deleteListeners env l).1 = .ok () →
        (deleteListeners env l).2.filter Call.isDelListener = nonEmptyListenerDeletes l) := by
  intro l
  induction l with
  | nil =>
    refine ⟨by simp [deleteListeners], ⟨0, by simp [deleteListeners, nonEmptyListenerDeletes]⟩, ?_⟩
    intro _
    simp [deleteListeners, nonEmptyListenerDeletes]
  | cons s rest ih =>
    obtain ⟨ih1, ⟨k, ihk⟩, ih3⟩ := ih
    by_cases hid : s.listenerId == ""
    · have hskip : deleteListeners env (s :: rest) = deleteListeners env rest := by
        simp [deleteListeners, hid]
      have hne : nonEmptyListenerDeletes (s :: rest) = nonEmptyListenerDeletes rest := by
        simp [nonEmptyListenerDeletes, List.filter_cons, hid]
      rw [hskip, hne]
      exact ⟨ih1, ⟨k, ihk⟩, ih3⟩
    · obtain ⟨jt, hjt, hjtprop⟩ := DeleteListener_trace env s.listenerId
      have hne : nonEmptyListenerDeletes (s :: rest) =
          Call.deleteListener s.listenerId :: nonEmptyListenerDeletes rest := by
        simp [nonEmptyListenerDeletes, List.filter_cons, hid]
      have hjtfil : jt.filter Call.isDelListener = [] := by
        rw [List.filter_eq_nil_iff]
        intro c hc
        simp [(hjtprop c hc).1]
      cases hD : (DeleteListener env s.listenerId).1 with
      | error e =>
        have hres : deleteListeners env (s :: rest) =
            (.error e, (DeleteListener env s.listenerId).2) := by
          simp only [deleteListeners, hid, Bool.false_eq_true, if_false, hD]
        rw [hres, hne]
        refine ⟨?_, ⟨1, ?_⟩, ?_⟩
        · intro c hc
          rw [hjt] at hc
          rcases List.mem_cons.mp hc with hc | hc
          · subst hc; rfl
          · exact (hjtprop c hc).2
        · rw [hjt]
          simp [List.filter_cons, Call.isDelListener, hjtfil, List.take_succ_cons]
        · intro habs
          simp at habs
      | ok u =>
        cases u
        have hres : deleteListeners env (s :: rest) =
            ((deleteListeners env rest).1,
              (DeleteListener env s.listenerId).2 ++ (deleteListeners env rest).2) := by
          simp only [deleteListeners, hid, Bool.false_eq_true, if_false, hD]
        rw [hres, hne]
        refine ⟨?_, ⟨k + 1, ?_⟩, ?_⟩
        · intro c hc
          rcases List.mem_append.mp hc with hc | hc
          · rw [hjt] at hc
            rcases List.mem_cons.mp hc with hc | hc
            · subst hc; rfl
            · exact (hjtprop c hc).2
          · exact ih1 c hc
        · rw [List.filter_append, hjt]
          simp only [List.filter_cons, Call.isDelListener, hjtfil, List.take_succ_cons]
          simp [ihk]
        · intro hok
          rw [List.filter_append, hjt]
          simp only [List.filter_cons, Call.isDelListener, hjtfil]
          simp [ih3 hok]

/-- `DeleteLoadBalancer` (the balancer delete step) never issues a listener
delete. -/
theorem deleteLBCore_no_delListener (env : SdkEnv) (lbId : String) (tr0 : List Call)
    (h : ∀ c ∈ tr0, c.isDelListener = false) :
    ∀ c ∈ (deleteLBCore env lbId tr0).2, c.isDelListener = false := by
  intro c hc
  unfold deleteLBCore at hc
  cases hdel : env.deleteLoadBalancer lbId with
  | error e =>
    rw [hdel] at hc
    by_cases hnf : strContains e "ResourceNotFound" <;>
    · simp only [hnf, Bool.false_eq_true, if_true, if_false] at hc
      rcases List.mem_append.mp hc with hc | hc
      · exact h c hc
      · simp only [List.mem_singleton] at hc
        subst hc; rfl
  | ok o =>
    rw [hdel] at hc
    cases o with
    | none =>
      rcases List.mem_append.mp hc with hc | hc
      · exact h c hc
      · simp only [List.mem_singleton] at hc
        subst hc; rfl
    | some b =>
      cases hj : b.jobId with
      | none =>
        simp only [hj] at hc
        rcases List.mem_append.mp hc with hc | hc
        · exact h c hc
        · simp only [List.mem_singleton] at hc
          subst hc; rfl
      | some j =>
        simp only [hj] at hc
        rcases List.mem_append.mp hc with hc | hc
        · exact h c hc
        · rcases List.mem_cons.mp hc with hc | hc
          · subst hc; rfl
          · have := jobPoll_calls env j (pollAttempts 3 180) 0 c hc
            subst this; rfl

theorem DeleteLoadBalancer_no_delListener (env : SdkEnv) (cnt : Nat) (lbId : String) :
    ∀ c ∈ (DeleteLoadBalancer env cnt lbId).2, c.isDelListener = false := by
  intro c hc
  rcases hG : GetLoadBalancer env cnt lbId with ⟨gr, gtr⟩
  have hgtr : gtr = [.getLoadBalancer lbId] := by
    have := GetLoadBalancer_calls env cnt lbId
    rw [hG] at this
    exact this
  subst hgtr
  rcases hP : UpdateLoadBalancerProtection env lbId false with ⟨pr, ptr⟩
  have hptr : ptr = [.updateProtection lbId false] := by
    have := UpdateProtection_calls env lbId false
    rw [hP] at this
    exact this
  subst hptr
  have hbase : ∀ c' ∈ ([Call.getLoadBalancer lbId] ++ [Call.updateProtection lbId false]),
      Call.isDelListener c' = false := by
    intro c' hc'
    rcases List.mem_append.mp hc' with hc' | hc' <;>
      (simp only [List.mem_singleton] at hc'; subst hc'; rfl)
  simp only [DeleteLoadBalancer, hG, hP] at hc
  cases gr with
  | error e =>
    cases pr with
    | error pe =>
      by_cases hnf : strContains pe "ResourceNotFound"
      · simp only [hnf, if_true] at hc
        rcases List.mem_append.mp hc with hc | hc <;>
          (simp only [List.mem_singleton] at hc; subst hc; rfl)
      · rw [Bool.not_eq_true] at hnf
        simp only [hnf, Bool.false_eq_true, if_false] at hc
        exact deleteLBCore_no_delListener env lbId _ hbase c hc
    | ok u =>
      cases u
      exact deleteLBCore_no_delListener env lbId _ hbase c hc
  | ok o =>
    cases o with
    | none =>
      simp only [List.mem_singleton] at hc
      subst hc; rfl
    | some b =>
      cases pr with
      | error pe =>
        by_cases hnf : strContains pe "ResourceNotFound"
        · simp only [hnf, if_true] at hc
          rcases List.mem_append.mp hc with hc | hc <;>
            (simp only [List.mem_singleton] at hc; subst hc; rfl)
        · rw [Bool.not_eq_true] at hnf
          simp only [hnf, Bool.false_eq_true, if_false] at hc
          exact deleteLBCore_no_delListener env lbId _ hbase c hc
      | ok u =>
        cases u
        exact deleteLBCore_no_delListener env lbId _ hbase c hc

/-- C2: in a Terminating reconciliation with the guard set, the calls split
into a listener phase followed by a balancer phase: no balancer delete in
the first, no listener delete in the second; the listener deletes issued are
a prefix of the records with non-empty ids in listed order; if the balancer
delete request is issued at all, every owed listener delete was issued
first; any failure returns the delayed(30s) directive with the guard still
set; and the guard is removed only with no error after all owed listener
deletes were issued. -/
theorem C2_deletion_protocol (env : SdkEnv) (cnt now : Nat) (nlb : NLB)
    (hfin : NLBFinalizer ∈ nlb.finalizers) :
    ∃ nlb' res err trL trB,
      (handleDeletion env cnt now nlb).outcome = .ok nlb' res err ∧
      (handleDeletion env cnt now nlb).calls = trL ++ trB ∧
      (∀ c ∈ trL, c.isDelLB = false) ∧
      (∀ c ∈ trB, c.isDelListener = false) ∧
      (∃ k, trL.filter Call.isDelListener =
        (nonEmptyListenerDeletes nlb.status.listenerStatus).take k) ∧
      ((∃ c ∈ trB, c.isDelLB = true) →
        trL.filter Call.isDelListener = nonEmptyListenerDeletes nlb.status.listenerStatus) ∧
      (∀ e, err = some e → res = ⟨false, 30⟩ ∧ NLBFinalizer ∈ nlb'.finalizers) ∧
      (NLBFinalizer ∉ nlb'.finalizers → err = none ∧
        trL.filter Call.isDelListener = nonEmptyListenerDeletes nlb.status.listenerStatus) := by
  simp only [handleDeletion, if_pos hfin]
  set nlb1 := (if nlb.status.loadBalancerStatus != "Deleting" then
      updateCondition
        { nlb with status := { nlb.status with loadBalancerStatus := "Deleting" } }
        ConditionTypeReady .condFalse "Deleting" "NLB is being deleted" now
    else nlb) with hnlb1
  have h1ls : nlb1.status.listenerStatus = nlb.status.listenerStatus := by
    rw [hnlb1]
    by_cases hdl : nlb.status.loadBalancerStatus != "Deleting"
    · rw [if_pos hdl]; rfl
    · rw [if_neg hdl]
  have h1fin : nlb1.finalizers = nlb.finalizers := by
    rw [hnlb1]
    by_cases hdl : nlb.status.loadBalancerStatus != "Deleting"
    · rw [if_pos hdl]; rfl
    · rw [if_neg hdl]
  obtain ⟨hL1, ⟨k, hLk⟩, hL3⟩ := deleteListeners_spec env nlb1.status.listenerStatus
  have hnel : nonEmptyListenerDeletes nlb1.status.listenerStatus =
      nonEmptyListenerDeletes nlb.status.listenerStatus := by rw [h1ls]
  rw [hnel] at hLk hL3
  cases hdl : (deleteListeners env nlb1.status.listenerStatus).1 with
  | error e =>
    refine ⟨nlb1, ⟨false, 30⟩, some e, (deleteListeners env nlb1.status.listenerStatus).2, [],
      rfl, by simp, hL1, by simp, ⟨k, hLk⟩, by simp, ?_, ?_⟩
    · intro e' _
      exact ⟨rfl, by rw [h1fin]; exact hfin⟩
    · intro habs
      rw [h1fin] at habs
      exact absurd hfin habs
  | ok u =>
    cases u
    have hfull := hL3 hdl
    by_cases hempty : nlb1.status.loadBalancerId == ""
    · rw [if_pos hempty]
      refine ⟨_, ⟨false, 0⟩, none, (deleteListeners env nlb1.status.listenerStatus).2, [],
        rfl, by simp, hL1, by simp, ⟨k, hLk⟩, fun _ => hfull, ?_, fun _ => ⟨rfl, hfull⟩⟩
      intro e' he'
      exact absurd he' (by simp)
    · rw [if_neg hempty]
      cases hdb : (DeleteLoadBalancer env cnt nlb1.status.loadBalancerId).1 with
      | error e =>
        refine ⟨nlb1, ⟨false, 30⟩, some e, (deleteListeners env nlb1.status.listenerStatus).2,
          (DeleteLoadBalancer env cnt nlb1.status.loadBalancerId).2,
          rfl, rfl, hL1, DeleteLoadBalancer_no_delListener env cnt _, ⟨k, hLk⟩,
          fun _ => hfull, ?_, ?_⟩
        · intro e' _
          exact ⟨rfl, by rw [h1fin]; exact hfin⟩
        · intro habs
          rw [h1fin] at habs
          exact absurd hfin habs
      | ok u2 =>
        cases u2
        refine ⟨_, ⟨false, 0⟩, none, (deleteListeners env nlb1.status.listenerStatus).2,
          (DeleteLoadBalancer env cnt nlb1.status.loadBalancerId).2,
          rfl, rfl, hL1, DeleteLoadBalancer_no_delListener env cnt _, ⟨k, hLk⟩,
          fun _ => hfull, ?_, fun _ => ⟨rfl, hfull⟩⟩
        intro e' he'
        exact absurd he' (by simp)

/-- The full teardown scenario for the C2 witness: one recorded listener,
every provider delete succeeds without an async job. -/
def envC2 : SdkEnv :=
  { envStub with
    getLoadBalancerAttribute := fun _ _ => .ok (some ⟨some "dns-2", some "Active"⟩),
    updateLoadBalancerProtection := fun _ _ => .ok (some ⟨⟩),
    deleteLoadBalancer := fun _ => .ok (some ⟨none⟩),
    deleteListener := fun _ => .ok (some ⟨none⟩) }

def nlbC2 : NLB :=
  ⟨[NLBFinalizer], 0, ⟨"", "Internet", "", [], []⟩,
    ⟨"lb-2", "dns-2", "Active", [], [⟨80, "lsn-1", "Active"⟩]⟩⟩

/-- Witness for C2 at the clean-teardown scenario. -/
theorem C2_deletion_protocol_witness :
    (NLBFinalizer ∈ nlbC2.finalizers) ∧
    (∃ nlb' res err trL trB,
      (handleDeletion envC2 0 0 nlbC2).outcome = .ok nlb' res err ∧
      (handleDeletion envC2 0 0 nlbC2).calls = trL ++ trB ∧
      (∀ c ∈ trL, c.isDelLB = false) ∧
      (∀ c ∈ trB, c.isDelListener = false) ∧
      (∃ k, trL.filter Call.isDelListener =
        (nonEmptyListenerDeletes nlbC2.status.listenerStatus).take k) ∧
      ((∃ c ∈ trB, c.isDelLB = true) →
        trL.filter Call.isDelListener = nonEmptyListenerDeletes nlbC2.status.listenerStatus) ∧
      (∀ e, err = some e → res = ⟨false, 30⟩ ∧ NLBFinalizer ∈ nlb'.finalizers) ∧
      (NLBFinalizer ∉ nlb'.finalizers → err = none ∧
        trL.filter Call.isDelListener = nonEmptyListenerDeletes nlbC2.status.listenerStatus)) :=
  ⟨by decide, C2_deletion_protocol envC2 0 0 nlbC2 (by decide)⟩

/-! ## Job Waiter (C4) -/

/-- An environment whose job-status endpoint reports `f attempt` on the
attempt-th poll (and which never loses the response body). -/
def mkJobEnv (f : Nat → String) : SdkEnv :=
  { envStub with getJobStatus := fun attempt _ => .ok (some ⟨some (f attempt)⟩) }

/-- Behaviour of the bounded poll loop over `mkJobEnv f`, for any start
index and fuel: if no attempt in the window is terminal the loop times out
after using all its fuel; if attempt `n` is the first terminal one and says
`Succeeded` the loop stops there with success; if it says `Failed` the loop
stops there with the job-failed error and polls no further. -/
theorem jobPoll_run (f : Nat → String) (jobId : String) :
    ∀ (fuel start : Nat),
      ((∀ i, start ≤ i → i < start + fuel → ¬ f i = "Succeeded" ∧ ¬ f i = "Failed") →
        pollImmediate (jobPollCond (mkJobEnv f) jobId) start fuel =
          (.error "timed out waiting for the condition",
           List.replicate fuel (.getJobStatus jobId))) ∧
      (∀ n, start ≤ n → n < start + fuel → f n = "Succeeded" →
        (∀ i, start ≤ i → i < n → ¬ f i = "Succeeded" ∧ ¬ f i = "Failed") →
        pollImmediate (jobPollCond (mkJobEnv f) jobId) start fuel =
          (.ok (), List.replicate (n + 1 - start) (.getJobStatus jobId))) ∧
      (∀ n, start ≤ n → n < start + fuel → f n = "Failed" →
        (∀ i, start ≤ i → i < n → ¬ f i = "Succeeded" ∧ ¬ f i = "Failed") →
        pollImmediate (jobPollCond (mkJobEnv f) jobId) start fuel =
          (.error ("job " ++ jobId ++ " failed"),
           List.replicate (n + 1 - start) (.getJobStatus jobId))) := by
  intro fuel
  induction fuel with
  | zero =>
    intro start
    refine ⟨fun _ => rfl, ?_, ?_⟩
    · intro n h1 h2
      omega
    · intro n h1 h2
      omega
  | succ k ih =>
    intro start
    obtain ⟨ih1, ih2, ih3⟩ := ih (start + 1)
    refine ⟨?_, ?_, ?_⟩
    · intro h
      have hs := h start (Nat.le_refl _) (by omega)
      have hb1 : (f start == "Succeeded") = false := by
        rw [beq_eq_false_iff_ne]
        exact hs.1
      have hb2 : (f start == "Failed") = false := by
        rw [beq_eq_false_iff_ne]
        exact hs.2
      have hcond : jobPollCond (mkJobEnv f) jobId start =
          (.ok false, [.getJobStatus jobId]) := by
        simp [jobPollCond, mkJobEnv, hb1, hb2]
      simp only [pollImmediate, hcond]
      rw [ih1 (fun i hi1 hi2 => h i (by omega) (by omega))]
      simp [List.replicate_succ]
    · intro n h1 h2 hsucc hprior
      rcases Nat.eq_or_lt_of_le h1 with heq | hlt
      · subst heq
        have hcond : jobPollCond (mkJobEnv f) jobId start =
            (.ok true, [.getJobStatus jobId]) := by
          simp [jobPollCond, mkJobEnv, hsucc]
        simp only [pollImmediate, hcond]
        have hone : start + 1 - start = 1 := by omega
        rw [hone]
        rfl
      · have hp := hprior start (Nat.le_refl _) hlt
        have hb1 : (f start == "Succeeded") = false := by
          rw [beq_eq_false_iff_ne]
          exact hp.1
        have hb2 : (f start == "Failed") = false := by
          rw [beq_eq_false_iff_ne]
          exact hp.2
        have hcond : jobPollCond (mkJobEnv f) jobId start =
            (.ok false, [.getJobStatus jobId]) := by
          simp [jobPollCond, mkJobEnv, hb1, hb2]
        simp only [pollImmediate, hcond]
        rw [ih2 n (by omega) (by omega) hsucc (fun i hi1 hi2 => hprior i (by omega) hi2)]
        have harith : n + 1 - start = (n + 1 - (start + 1)) + 1 := by omega
        rw [harith]
        simp [List.replicate_succ]
    · intro n h1 h2 hfail hprior
      rcases Nat.eq_or_lt_of_le h1 with heq | hlt
      · subst heq
        have hcond : jobPollCond (mkJobEnv f) jobId start =
            (.error ("job " ++ jobId ++ " failed"), [.getJobStatus jobId]) := by
          simp [jobPollCond, mkJobEnv, hfail]
        simp only [pollImmediate, hcond]
        have hone : start + 1 - start = 1 := by omega
        rw [hone]
        rfl
      · have hp := hprior start (Nat.le_refl _) hlt
        have hb1 : (f start == "Succeeded") = false := by
          rw [beq_eq_false_iff_ne]
          exact hp.1
        have hb2 : (f start == "Failed") = false := by
          rw [beq_eq_false_iff_ne]
          exact hp.2
        have hcond : jobPollCond (mkJobEnv f) jobId start =
            (.ok false, [.getJobStatus jobId]) := by
          simp [jobPollCond, mkJobEnv, hb1, hb2]
        simp only [pollImmediate, hcond]
        rw [ih3 n (by omega) (by omega) hfail (fun i hi1 hi2 => hprior i (by omega) hi2)]
        have harith : n + 1 - start = (n + 1 - (start + 1)) + 1 := by omega
        rw [harith]
        simp [List.replicate_succ]

/-- C4: the delete-job waiter is the bounded poll at interval 3s up to the
3min ceiling, the wait-until-active check is the bounded poll at interval
10s up to the 5min ceiling, and over any job-status sequence the waiter has
exactly three terminal outcomes: a first `Succeeded` at attempt `n` returns
success after `n+1` polls, a first `Failed` at attempt `n` returns the
job-failed error after `n+1` polls with no further polling of that job, and
a window with no terminal status polls the full bound and returns the
timeout error. -/
theorem C4_job_waiter (f : Nat → String) (jobId : String) (n : Nat) :
    (∀ (env : SdkEnv) (j : String), waitJobFinish env j =
      pollImmediate (jobPollCond env j) 0 (pollAttempts 3 180)) ∧
    (∀ (env : SdkEnv) (cnt : Nat) (lbId : String), WaitLoadBalancerActive env cnt lbId =
      pollImmediate (activePollCond env cnt lbId) 0 (pollAttempts 10 300)) ∧
    ((∀ i, i < pollAttempts 3 180 → ¬ f i = "Succeeded" ∧ ¬ f i = "Failed") →
      waitJobFinish (mkJobEnv f) jobId =
        (.error "timed out waiting for the condition",
         List.replicate (pollAttempts 3 180) (.getJobStatus jobId))) ∧
    (n < pollAttempts 3 180 → f n = "Succeeded" →
      (∀ i, i < n → ¬ f i = "Succeeded" ∧ ¬ f i = "Failed") →
      waitJobFinish (mkJobEnv f) jobId =
        (.ok (), List.replicate (n + 1) (.getJobStatus jobId))) ∧
    (n < pollAttempts 3 180 → f n = "Failed" →
      (∀ i, i < n → ¬ f i = "Succeeded" ∧ ¬ f i = "Failed") →
      waitJobFinish (mkJobEnv f) jobId =
        (.error ("job " ++ jobId ++ " failed"),
         List.replicate (n + 1) (.getJobStatus jobId))) := by
  obtain ⟨hr1, hr2, hr3⟩ := jobPoll_run f jobId (pollAttempts 3 180) 0
  refine ⟨fun _ _ => rfl, fun _ _ _ => rfl, ?_, ?_, ?_⟩
  · intro h
    exact hr1 (fun i _ hi2 => h i (by omega))
  · intro hn hsucc hprior
    have := hr2 n (Nat.zero_le n) (by omega) hsucc (fun i _ hi2 => hprior i hi2)
    simpa using this
  · intro hn hfail hprior
    have := hr3 n (Nat.zero_le n) (by omega) hfail (fun i _ hi2 => hprior i hi2)
    simpa using this

/-- Job status sequence: pending twice, then succeeded. -/
def fC4 : Nat → String := fun i => if i == 2 then "Succeeded" else "Pending"

/-- Witness for C4: the job succeeds on the third poll attempt. -/
theorem C4_job_waiter_witness :
    (2 < pollAttempts 3 180 ∧ fC4 2 = "Succeeded" ∧
      (∀ i, i < 2 → ¬ fC4 i = "Succeeded" ∧ ¬ fC4 i = "Failed")) ∧
    waitJobFinish (mkJobEnv fC4) "job-1" =
      (.ok (), List.replicate 3 (.getJobStatus "job-1")) :=
  ⟨⟨by decide, rfl, by decide⟩,
    (C4_job_waiter fC4 "job-1" 2).2.2.2.1 (by decide) rfl (by decide)⟩

end NLBOp
